import Mathlib

/-!
CPU frequency hard limit driver: a shallow embedding of
`drivers/cpufreq/cpufreq_hardlimit.c`.

* The module's global variables become the fields of `State`; every C function
  becomes a function on `State` (the sysfs stores also return their `ssize_t`).
* All variables are `unsigned int`.  The driver only compares and copies them,
  except for `touchevent_count++` and `delay * 1000`, which are taken modulo `2^32`.
* The macros of `include/linux/cpufreq_hardlimit.h` and `CPUFREQ_TABLE_END` of
  `linux/cpufreq.h` are not part of the sources at hand; they are the fields of `Consts`.
* `sscanf(buf, "%du", &v)` is represented by its outcome: `none` when nothing was
  converted, `some v` when `v` was stored.
* `update_scaling_limits` is a call into the cpufreq core; it writes none of the
  module's variables and is not represented.
-/

namespace Hardlimit

/-- The macros the driver takes from `linux/cpufreq_hardlimit.h` and `linux/cpufreq.h`. -/
structure Consts where
  CPUFREQ_HARDLIMIT_MAX_SCREEN_ON_STOCK : Nat
  CPUFREQ_HARDLIMIT_MAX_SCREEN_OFF_STOCK : Nat
  CPUFREQ_HARDLIMIT_MIN_SCREEN_ON_STOCK : Nat
  CPUFREQ_HARDLIMIT_MIN_SCREEN_OFF_STOCK : Nat
  CPUFREQ_HARDLIMIT_WAKEUP_KICK_DISABLED : Nat
  CPUFREQ_HARDLIMIT_WAKEUP_KICK_DELAY_MAX : Nat
  CPUFREQ_HARDLIMIT_WAKEUP_KICK_INACTIVE : Nat
  CPUFREQ_HARDLIMIT_WAKEUP_KICK_ACTIVE : Nat
  CPUFREQ_HARDLIMIT_TOUCHBOOST_LO_DEFAULT : Nat
  CPUFREQ_HARDLIMIT_TOUCHBOOST_HI_DEFAULT : Nat
  CPUFREQ_HARDLIMIT_TOUCHBOOST_INACTIVE : Nat
  CPUFREQ_HARDLIMIT_TOUCHBOOST_ACTIVE_LO : Nat
  CPUFREQ_HARDLIMIT_TOUCHBOOST_ACTIVE_HI : Nat
  CPUFREQ_HARDLIMIT_TOUCHBOOST_DISABLED : Nat
  CPUFREQ_HARDLIMIT_TOUCHBOOST_DELAY_MAX : Nat
  CPUFREQ_HARDLIMIT_TOUCHBOOST_EVENTS : Nat
  CPUFREQ_HARDLIMIT_TOUCHBOOST_EVENTS_MIN : Nat
  CPUFREQ_HARDLIMIT_TOUCHBOOST_EVENTS_MAX : Nat
  CPUFREQ_HARDLIMIT_USERSPACE_DVFS_ALLOW : Nat
  CPUFREQ_HARDLIMIT_USERSPACE_DVFS_IGNORE : Nat
  CPUFREQ_HARDLIMIT_USERSPACE_DVFS_REFUSE : Nat
  CPUFREQ_HARDLIMIT_SCREEN_ON : Nat
  CPUFREQ_HARDLIMIT_SCREEN_OFF : Nat
  CPUFREQ_TABLE_END : Nat
deriving DecidableEq, Repr

/-- The module's global variables (lines 91-114 of the driver).  The two
`delayed_work` items hold `some d` while a run is pending, `d` being the
microsecond argument handed to `usecs_to_jiffies`. -/
structure State where
  hardlimit_max_screen_on : Nat
  hardlimit_max_screen_off : Nat
  hardlimit_min_screen_on : Nat
  hardlimit_min_screen_off : Nat
  wakeup_kick_freq : Nat
  wakeup_kick_delay : Nat
  wakeup_kick_active : Nat
  touchboost_lo_freq : Nat
  touchboost_hi_freq : Nat
  touchboost_active : Nat
  touchboost_delay : Nat
  touchboost_eventcount : Nat
  touchevent_count : Nat
  previous_finger_count : Nat
  userspace_dvfs_lock : Nat
  current_limit_max : Nat
  current_limit_min : Nat
  current_screen_state : Nat
  stop_wakeup_kick_work : Option Nat
  stop_touchboost_work : Option Nat
deriving DecidableEq, Repr

/-- The initialisers of the global variables; no work is pending at load time. -/
def initState (K : Consts) : State where
  hardlimit_max_screen_on := K.CPUFREQ_HARDLIMIT_MAX_SCREEN_ON_STOCK
  hardlimit_max_screen_off := K.CPUFREQ_HARDLIMIT_MAX_SCREEN_OFF_STOCK
  hardlimit_min_screen_on := K.CPUFREQ_HARDLIMIT_MIN_SCREEN_ON_STOCK
  hardlimit_min_screen_off := K.CPUFREQ_HARDLIMIT_MIN_SCREEN_OFF_STOCK
  wakeup_kick_freq := K.CPUFREQ_HARDLIMIT_MIN_SCREEN_ON_STOCK
  wakeup_kick_delay := K.CPUFREQ_HARDLIMIT_WAKEUP_KICK_DISABLED
  wakeup_kick_active := K.CPUFREQ_HARDLIMIT_WAKEUP_KICK_INACTIVE
  touchboost_lo_freq := K.CPUFREQ_HARDLIMIT_TOUCHBOOST_LO_DEFAULT
  touchboost_hi_freq := K.CPUFREQ_HARDLIMIT_TOUCHBOOST_HI_DEFAULT
  touchboost_active := K.CPUFREQ_HARDLIMIT_TOUCHBOOST_INACTIVE
  touchboost_delay := K.CPUFREQ_HARDLIMIT_TOUCHBOOST_DISABLED
  touchboost_eventcount := K.CPUFREQ_HARDLIMIT_TOUCHBOOST_EVENTS
  touchevent_count := 0
  previous_finger_count := 0
  userspace_dvfs_lock := K.CPUFREQ_HARDLIMIT_USERSPACE_DVFS_ALLOW
  current_limit_max := K.CPUFREQ_HARDLIMIT_MAX_SCREEN_ON_STOCK
  current_limit_min := K.CPUFREQ_HARDLIMIT_MIN_SCREEN_ON_STOCK
  current_screen_state := K.CPUFREQ_HARDLIMIT_SCREEN_ON
  stop_wakeup_kick_work := none
  stop_touchboost_work := none

/-- The errno value the stores return negated. -/
def EINVAL : Int := 22

/-- Width of `unsigned int`. -/
def UINT_MOD : Nat := 2 ^ 32

/-- Modelled from the spec: the timer scheduling primitive (`schedule_delayed_work`
of the kernel workqueue, absent from the sources at hand).  The spec gives it
"latest schedule wins" semantics: arming replaces whatever was pending. -/
def schedule_delayed_work (_work : Option Nat) (usecs : Nat) : Option Nat :=
  some usecs

/-- Modelled from the spec: the cancel half of the timer scheduling primitive
(`cancel_delayed_work`, absent from the sources at hand): nothing stays pending. -/
def cancel_delayed_work (_work : Option Nat) : Option Nat :=
  none

/-- The scan `for (i = 0; table[i].frequency != CPUFREQ_TABLE_END; i++)
if (table[i].frequency == v)` shared by the frequency stores: `table` is the
frequency column of the array returned by `cpufreq_frequency_get_table(0)`. -/
def table_has_frequency (K : Consts) : List Nat → Nat → Bool
  | [], _ => false
  | f :: rest, v =>
    if f = K.CPUFREQ_TABLE_END then false
    else if f = v then true
    else table_has_frequency K rest v

/-- The entries of the table: what precedes the `CPUFREQ_TABLE_END` terminator. -/
def table_entries (K : Consts) (table : List Nat) : List Nat :=
  table.takeWhile (fun f => decide (f ≠ K.CPUFREQ_TABLE_END))

/-- Sanitize cpufreq to hardlimits (line 119). -/
def check_cpufreq_hardlimit (s : State) (freq : Nat) : Nat :=
  max s.current_limit_min (min s.current_limit_max freq)

/-- Update limits in cpufreq (line 134). -/
def reapply_hard_limits (K : Consts) (s : State) : State :=
  if s.current_screen_state = K.CPUFREQ_HARDLIMIT_SCREEN_ON then
    if s.wakeup_kick_active = K.CPUFREQ_HARDLIMIT_WAKEUP_KICK_ACTIVE then
      { s with
        current_limit_min := s.wakeup_kick_freq
        current_limit_max :=
          max s.hardlimit_max_screen_on (min s.hardlimit_max_screen_on s.wakeup_kick_freq) }
    else if s.touchboost_active ≠ K.CPUFREQ_HARDLIMIT_TOUCHBOOST_INACTIVE then
      { s with
        current_limit_min :=
          if s.touchboost_active = K.CPUFREQ_HARDLIMIT_TOUCHBOOST_ACTIVE_LO then
            s.touchboost_lo_freq
          else
            s.touchboost_hi_freq
        current_limit_max := s.hardlimit_max_screen_on }
    else
      { s with
        current_limit_min := s.hardlimit_min_screen_on
        current_limit_max := s.hardlimit_max_screen_on }
  else
    { s with
      current_limit_min := s.hardlimit_min_screen_off
      current_limit_max := s.hardlimit_max_screen_off }

/-- Scaling min/max lock (line 184). -/
def userspace_dvfs_lock_status (s : State) : Nat :=
  s.userspace_dvfs_lock

/-- Powersuspend: the screen goes off (line 190). -/
def cpufreq_hardlimit_suspend (K : Consts) (s : State) : State :=
  reapply_hard_limits K { s with current_screen_state := K.CPUFREQ_HARDLIMIT_SCREEN_OFF }

/-- Powersuspend: the screen comes back on (line 205). -/
def cpufreq_hardlimit_resume (K : Consts) (s : State) : State :=
  let s1 := { s with current_screen_state := K.CPUFREQ_HARDLIMIT_SCREEN_ON }
  let s2 :=
    if s1.wakeup_kick_delay = K.CPUFREQ_HARDLIMIT_WAKEUP_KICK_DISABLED then
      { s1 with wakeup_kick_active := K.CPUFREQ_HARDLIMIT_WAKEUP_KICK_INACTIVE }
    else
      { s1 with
        wakeup_kick_active := K.CPUFREQ_HARDLIMIT_WAKEUP_KICK_ACTIVE
        stop_wakeup_kick_work :=
          schedule_delayed_work s1.stop_wakeup_kick_work
            ((s1.wakeup_kick_delay * 1000) % UINT_MOD) }
  reapply_hard_limits K s2

/-- Wakeup kick delayed work (line 245). -/
def stop_wakeup_kick (K : Consts) (s : State) : State :=
  reapply_hard_limits K
    { s with wakeup_kick_active := K.CPUFREQ_HARDLIMIT_WAKEUP_KICK_INACTIVE }

/-- Touch report from the input driver (line 264). -/
def touchboost_report_touch (K : Consts) (finger_count : Nat) (s : State) : State :=
  if s.touchboost_delay = K.CPUFREQ_HARDLIMIT_TOUCHBOOST_DISABLED then s
  else
    let s1 :=
      if s.touchboost_active = K.CPUFREQ_HARDLIMIT_TOUCHBOOST_INACTIVE then
        if finger_count ≠ 0 then
          reapply_hard_limits K
            { s with
              touchboost_active := K.CPUFREQ_HARDLIMIT_TOUCHBOOST_ACTIVE_LO
              touchevent_count := 1
              stop_touchboost_work :=
                schedule_delayed_work s.stop_touchboost_work
                  ((s.touchboost_delay * 1000) % UINT_MOD) }
        else s
      else if s.touchboost_active = K.CPUFREQ_HARDLIMIT_TOUCHBOOST_ACTIVE_LO then
        if finger_count ≠ 0 then
          let s2 :=
            if s.touchevent_count < s.touchboost_eventcount then
              if s.previous_finger_count < finger_count then
                { s with touchevent_count := (s.touchevent_count + 1) % UINT_MOD }
              else s
            else
              reapply_hard_limits K
                { s with touchboost_active := K.CPUFREQ_HARDLIMIT_TOUCHBOOST_ACTIVE_HI }
          { s2 with
            stop_touchboost_work :=
              schedule_delayed_work (cancel_delayed_work s2.stop_touchboost_work)
                ((s2.touchboost_delay * 1000) % UINT_MOD) }
        else s
      else if s.touchboost_active = K.CPUFREQ_HARDLIMIT_TOUCHBOOST_ACTIVE_HI then
        if finger_count ≠ 0 then
          { s with
            stop_touchboost_work :=
              schedule_delayed_work (cancel_delayed_work s.stop_touchboost_work)
                ((s.touchboost_delay * 1000) % UINT_MOD) }
        else s
      else s
    { s1 with previous_finger_count := finger_count }

/-- Touchboost delayed work (line 324). -/
def stop_touchboost (K : Consts) (s : State) : State :=
  reapply_hard_limits K
    { s with
      touchboost_active := K.CPUFREQ_HARDLIMIT_TOUCHBOOST_INACTIVE
      touchevent_count := 0 }

/-- The sysfs store of `scaling_max_freq_screen_on` (line 351). -/
def hardlimit_max_screen_on_store (K : Consts) (table : List Nat) (buf : Option Nat)
    (count : Nat) (s : State) : Int × State :=
  match buf with
  | none => (-EINVAL, s)
  | some new_hardlimit =>
    if new_hardlimit = s.hardlimit_max_screen_on then ((count : Int), s)
    else if table_has_frequency K table new_hardlimit then
      let s1 := { s with hardlimit_max_screen_on := new_hardlimit }
      let s2 :=
        if s1.hardlimit_max_screen_on < s1.wakeup_kick_freq then
          { s1 with wakeup_kick_freq := s1.hardlimit_max_screen_on }
        else s1
      ((count : Int), reapply_hard_limits K s2)
    else (-EINVAL, s)

/-- The sysfs store of `scaling_max_freq_screen_off` (line 386). -/
def hardlimit_max_screen_off_store (K : Consts) (table : List Nat) (buf : Option Nat)
    (count : Nat) (s : State) : Int × State :=
  match buf with
  | none => (-EINVAL, s)
  | some new_hardlimit =>
    if new_hardlimit = s.hardlimit_max_screen_off then ((count : Int), s)
    else if table_has_frequency K table new_hardlimit then
      ((count : Int), reapply_hard_limits K { s with hardlimit_max_screen_off := new_hardlimit })
    else (-EINVAL, s)

/-- The sysfs store of `scaling_min_freq_screen_on` (line 418). -/
def hardlimit_min_screen_on_store (K : Consts) (table : List Nat) (buf : Option Nat)
    (count : Nat) (s : State) : Int × State :=
  match buf with
  | none => (-EINVAL, s)
  | some new_hardlimit =>
    if new_hardlimit = s.hardlimit_min_screen_on then ((count : Int), s)
    else if table_has_frequency K table new_hardlimit then
      let s1 := { s with hardlimit_min_screen_on := new_hardlimit }
      let s2 :=
        if s1.hardlimit_min_screen_on > s1.wakeup_kick_freq then
          { s1 with wakeup_kick_freq := s1.hardlimit_min_screen_on }
        else s1
      ((count : Int), reapply_hard_limits K s2)
    else (-EINVAL, s)

/-- The sysfs store of `scaling_min_freq_screen_off` (line 453). -/
def hardlimit_min_screen_off_store (K : Consts) (table : List Nat) (buf : Option Nat)
    (count : Nat) (s : State) : Int × State :=
  match buf with
  | none => (-EINVAL, s)
  | some new_hardlimit =>
    if new_hardlimit = s.hardlimit_min_screen_off then ((count : Int), s)
    else if table_has_frequency K table new_hardlimit then
      ((count : Int), reapply_hard_limits K { s with hardlimit_min_screen_off := new_hardlimit })
    else (-EINVAL, s)

/-- The sysfs store of `wakeup_kick_freq` (line 485). -/
def wakeup_kick_freq_store (K : Consts) (table : List Nat) (buf : Option Nat)
    (count : Nat) (s : State) : Int × State :=
  match buf with
  | none => (-EINVAL, s)
  | some new_wakeup_kick_freq =>
    if new_wakeup_kick_freq = s.wakeup_kick_freq then ((count : Int), s)
    else if new_wakeup_kick_freq > s.hardlimit_max_screen_on
        ∨ new_wakeup_kick_freq < s.hardlimit_min_screen_on then (-EINVAL, s)
    else if table_has_frequency K table new_wakeup_kick_freq then
      ((count : Int), reapply_hard_limits K { s with wakeup_kick_freq := new_wakeup_kick_freq })
    else (-EINVAL, s)

/-- The sysfs store of `wakeup_kick_delay` (line 521). -/
def wakeup_kick_delay_store (K : Consts) (buf : Option Nat) (count : Nat) (s : State) :
    Int × State :=
  match buf with
  | none => (-EINVAL, s)
  | some new_wakeup_kick_delay =>
    if new_wakeup_kick_delay ≥ K.CPUFREQ_HARDLIMIT_WAKEUP_KICK_DISABLED
        ∧ new_wakeup_kick_delay ≤ K.CPUFREQ_HARDLIMIT_WAKEUP_KICK_DELAY_MAX then
      ((count : Int), { s with wakeup_kick_delay := new_wakeup_kick_delay })
    else (-EINVAL, s)

/-- The sysfs store of `touchboost_lo_freq` (line 547). -/
def touchboost_lo_freq_store (K : Consts) (table : List Nat) (buf : Option Nat)
    (count : Nat) (s : State) : Int × State :=
  match buf with
  | none => (-EINVAL, s)
  | some new_touchboost_lo_freq =>
    if new_touchboost_lo_freq = s.touchboost_lo_freq then ((count : Int), s)
    else if table_has_frequency K table new_touchboost_lo_freq then
      let s1 := { s with touchboost_lo_freq := new_touchboost_lo_freq }
      let s2 :=
        if s1.touchboost_hi_freq < s1.touchboost_lo_freq then
          { s1 with touchboost_hi_freq := s1.touchboost_lo_freq }
        else s1
      ((count : Int), s2)
    else (-EINVAL, s)

/-- The sysfs store of `touchboost_hi_freq` (line 581). -/
def touchboost_hi_freq_store (K : Consts) (table : List Nat) (buf : Option Nat)
    (count : Nat) (s : State) : Int × State :=
  match buf with
  | none => (-EINVAL, s)
  | some new_touchboost_hi_freq =>
    if new_touchboost_hi_freq = s.touchboost_hi_freq then ((count : Int), s)
    else if table_has_frequency K table new_touchboost_hi_freq then
      let s1 := { s with touchboost_hi_freq := new_touchboost_hi_freq }
      let s2 :=
        if s1.touchboost_lo_freq = K.CPUFREQ_HARDLIMIT_TOUCHBOOST_DISABLED then
          { s1 with touchboost_lo_freq := K.CPUFREQ_HARDLIMIT_MIN_SCREEN_ON_STOCK }
        else s1
      let s3 :=
        if s2.touchboost_lo_freq > s2.touchboost_hi_freq then
          { s2 with touchboost_lo_freq := s2.touchboost_hi_freq }
        else s2
      ((count : Int), s3)
    else (-EINVAL, s)

/-- The sysfs store of `touchboost_delay` (line 618). -/
def touchboost_delay_store (K : Consts) (buf : Option Nat) (count : Nat) (s : State) :
    Int × State :=
  match buf with
  | none => (-EINVAL, s)
  | some new_touchboost_delay =>
    if new_touchboost_delay = s.touchboost_delay then ((count : Int), s)
    else if new_touchboost_delay ≥ K.CPUFREQ_HARDLIMIT_TOUCHBOOST_DISABLED
        ∧ new_touchboost_delay ≤ K.CPUFREQ_HARDLIMIT_TOUCHBOOST_DELAY_MAX then
      ((count : Int), { s with touchboost_delay := new_touchboost_delay })
    else (-EINVAL, s)

/-- The sysfs store of `touchboost_eventcount` (line 646). -/
def touchboost_eventcount_store (K : Consts) (buf : Option Nat) (count : Nat) (s : State) :
    Int × State :=
  match buf with
  | none => (-EINVAL, s)
  | some new_touchboost_eventcount =>
    if new_touchboost_eventcount = s.touchboost_eventcount then ((count : Int), s)
    else if new_touchboost_eventcount ≥ K.CPUFREQ_HARDLIMIT_TOUCHBOOST_EVENTS_MIN
        ∧ new_touchboost_eventcount ≤ K.CPUFREQ_HARDLIMIT_TOUCHBOOST_EVENTS_MAX then
      ((count : Int), { s with touchboost_eventcount := new_touchboost_eventcount })
    else (-EINVAL, s)

/-- The sysfs store of `userspace_dvfs_lock` (line 674). -/
def userspace_dvfs_lock_store (K : Consts) (buf : Option Nat) (count : Nat) (s : State) :
    Int × State :=
  match buf with
  | none => (-EINVAL, s)
  | some new_userspace_dvfs_lock =>
    if new_userspace_dvfs_lock = s.userspace_dvfs_lock then ((count : Int), s)
    else if new_userspace_dvfs_lock = K.CPUFREQ_HARDLIMIT_USERSPACE_DVFS_ALLOW
        ∨ new_userspace_dvfs_lock = K.CPUFREQ_HARDLIMIT_USERSPACE_DVFS_IGNORE
        ∨ new_userspace_dvfs_lock = K.CPUFREQ_HARDLIMIT_USERSPACE_DVFS_REFUSE then
      ((count : Int), { s with userspace_dvfs_lock := new_userspace_dvfs_lock })
    else (-EINVAL, s)

/-- The writable sysfs attributes of `hardlimit_attrs` (line 792). -/
inductive Field where
  | hardlimit_max_screen_on
  | hardlimit_max_screen_off
  | hardlimit_min_screen_on
  | hardlimit_min_screen_off
  | wakeup_kick_freq
  | wakeup_kick_delay
  | touchboost_lo_freq
  | touchboost_hi_freq
  | touchboost_delay
  | touchboost_eventcount
  | userspace_dvfs_lock
deriving DecidableEq, Repr

/-- The variable an attribute shows and stores. -/
def Field.get : Field → State → Nat
  | .hardlimit_max_screen_on, s => s.hardlimit_max_screen_on
  | .hardlimit_max_screen_off, s => s.hardlimit_max_screen_off
  | .hardlimit_min_screen_on, s => s.hardlimit_min_screen_on
  | .hardlimit_min_screen_off, s => s.hardlimit_min_screen_off
  | .wakeup_kick_freq, s => s.wakeup_kick_freq
  | .wakeup_kick_delay, s => s.wakeup_kick_delay
  | .touchboost_lo_freq, s => s.touchboost_lo_freq
  | .touchboost_hi_freq, s => s.touchboost_hi_freq
  | .touchboost_delay, s => s.touchboost_delay
  | .touchboost_eventcount, s => s.touchboost_eventcount
  | .userspace_dvfs_lock, s => s.userspace_dvfs_lock

/-- The attributes whose store validates its value against the frequency table. -/
def Field.isFrequency : Field → Bool
  | .hardlimit_max_screen_on => true
  | .hardlimit_max_screen_off => true
  | .hardlimit_min_screen_on => true
  | .hardlimit_min_screen_off => true
  | .wakeup_kick_freq => true
  | .touchboost_lo_freq => true
  | .touchboost_hi_freq => true
  | _ => false

/-- The `__ATTR` wiring (lines 747-778): the store function of each attribute. -/
def sysfs_store (K : Consts) (fld : Field) (table : List Nat) (buf : Option Nat)
    (count : Nat) (s : State) : Int × State :=
  match fld with
  | .hardlimit_max_screen_on => hardlimit_max_screen_on_store K table buf count s
  | .hardlimit_max_screen_off => hardlimit_max_screen_off_store K table buf count s
  | .hardlimit_min_screen_on => hardlimit_min_screen_on_store K table buf count s
  | .hardlimit_min_screen_off => hardlimit_min_screen_off_store K table buf count s
  | .wakeup_kick_freq => wakeup_kick_freq_store K table buf count s
  | .wakeup_kick_delay => wakeup_kick_delay_store K buf count s
  | .touchboost_lo_freq => touchboost_lo_freq_store K table buf count s
  | .touchboost_hi_freq => touchboost_hi_freq_store K table buf count s
  | .touchboost_delay => touchboost_delay_store K buf count s
  | .touchboost_eventcount => touchboost_eventcount_store K buf count s
  | .userspace_dvfs_lock => userspace_dvfs_lock_store K buf count s

/-- What can happen to the module: a sysfs write (with the frequency table of that
moment), a powersuspend notification, a touch report, or one of the two delayed
works coming due. -/
inductive Event where
  | store (fld : Field) (table : List Nat) (buf : Option Nat) (count : Nat)
  | suspend
  | resume
  | touch (finger_count : Nat)
  | wakeup_kick_work
  | touchboost_work
deriving DecidableEq, Repr

/-- One event applied to the module.  A delayed work runs only while it is pending,
and is no longer pending when its function runs. -/
def step (K : Consts) (s : State) : Event → State
  | .store fld table buf count => (sysfs_store K fld table buf count s).2
  | .suspend => cpufreq_hardlimit_suspend K s
  | .resume => cpufreq_hardlimit_resume K s
  | .touch finger_count => touchboost_report_touch K finger_count s
  | .wakeup_kick_work =>
    match s.stop_wakeup_kick_work with
    | none => s
    | some _ => stop_wakeup_kick K { s with stop_wakeup_kick_work := none }
  | .touchboost_work =>
    match s.stop_touchboost_work with
    | none => s
    | some _ => stop_touchboost K { s with stop_touchboost_work := none }

/-- A finite sequence of events, applied in order. -/
def run (K : Consts) (s : State) (events : List Event) : State :=
  events.foldl (step K) s

/-- The states the module can be in: the initial one and whatever events lead to. -/
inductive Reachable (K : Consts) : State → Prop where
  | init : Reachable K (initState K)
  | next {s : State} (e : Event) : Reachable K s → Reachable K (step K s e)

/-- The pair `reapply_hard_limits` computes for a state:
`(current_limit_min, current_limit_max)` after the recomputation. -/
def effective_limits (K : Consts) (s : State) : Nat × Nat :=
  ((reapply_hard_limits K s).current_limit_min, (reapply_hard_limits K s).current_limit_max)

/-- Modelled from the spec: an instance of the macros of `linux/cpufreq_hardlimit.h`
(absent from the sources at hand) with the frequencies of the spec's scenarios A-D
(stock window 200..1000 screen on, 100..500 screen off, touchboost 300/800); the
ranges follow the driver's header comment (delays up to 10000 ms, 0 = disabled,
event count 1-10, default 5, lock modes 0/1/2). -/
def scenarioConsts : Consts where
  CPUFREQ_HARDLIMIT_MAX_SCREEN_ON_STOCK := 1000
  CPUFREQ_HARDLIMIT_MAX_SCREEN_OFF_STOCK := 500
  CPUFREQ_HARDLIMIT_MIN_SCREEN_ON_STOCK := 200
  CPUFREQ_HARDLIMIT_MIN_SCREEN_OFF_STOCK := 100
  CPUFREQ_HARDLIMIT_WAKEUP_KICK_DISABLED := 0
  CPUFREQ_HARDLIMIT_WAKEUP_KICK_DELAY_MAX := 10000
  CPUFREQ_HARDLIMIT_WAKEUP_KICK_INACTIVE := 0
  CPUFREQ_HARDLIMIT_WAKEUP_KICK_ACTIVE := 1
  CPUFREQ_HARDLIMIT_TOUCHBOOST_LO_DEFAULT := 300
  CPUFREQ_HARDLIMIT_TOUCHBOOST_HI_DEFAULT := 800
  CPUFREQ_HARDLIMIT_TOUCHBOOST_INACTIVE := 0
  CPUFREQ_HARDLIMIT_TOUCHBOOST_ACTIVE_LO := 1
  CPUFREQ_HARDLIMIT_TOUCHBOOST_ACTIVE_HI := 2
  CPUFREQ_HARDLIMIT_TOUCHBOOST_DISABLED := 0
  CPUFREQ_HARDLIMIT_TOUCHBOOST_DELAY_MAX := 10000
  CPUFREQ_HARDLIMIT_TOUCHBOOST_EVENTS := 5
  CPUFREQ_HARDLIMIT_TOUCHBOOST_EVENTS_MIN := 1
  CPUFREQ_HARDLIMIT_TOUCHBOOST_EVENTS_MAX := 10
  CPUFREQ_HARDLIMIT_USERSPACE_DVFS_ALLOW := 0
  CPUFREQ_HARDLIMIT_USERSPACE_DVFS_IGNORE := 1
  CPUFREQ_HARDLIMIT_USERSPACE_DVFS_REFUSE := 2
  CPUFREQ_HARDLIMIT_SCREEN_ON := 0
  CPUFREQ_HARDLIMIT_SCREEN_OFF := 1
  CPUFREQ_TABLE_END := 4294967294

/-- The frequency table of the spec's scenario A: 100, 200, ..., 1000, then the
terminator. -/
def scenarioTable : List Nat :=
  [100, 200, 300, 400, 500, 600, 700, 800, 900, 1000, 4294967294]

/-- The ordering between configured values under which the recomputed pair is ordered:
each screen state's minimum is at most its maximum, and both touchboost frequencies
are at most the screen-on maximum. -/
def config_ordered (s : State) : Prop :=
  s.hardlimit_min_screen_on ≤ s.hardlimit_max_screen_on
    ∧ s.hardlimit_min_screen_off ≤ s.hardlimit_max_screen_off
    ∧ s.touchboost_lo_freq ≤ s.hardlimit_max_screen_on
    ∧ s.touchboost_hi_freq ≤ s.hardlimit_max_screen_on

instance config_ordered_decidable (s : State) : Decidable (config_ordered s) :=
  inferInstanceAs (Decidable (_ ∧ _ ∧ _ ∧ _))

/-- The configuration is ordered after each event of the sequence. -/
def ordered_along (K : Consts) (s : State) : List Event → Prop
  | [] => True
  | e :: rest => config_ordered (step K s e) ∧ ordered_along K (step K s e) rest

/-- A run of the spec's scenarios: touchboost is enabled with a 500 ms delay, a finger
touches the screen, the screen-on maximum is lowered to 900, the screen goes off and
comes back on, and the touchboost work comes due. -/
def scenarioEvents : List Event :=
  [.store .touchboost_delay scenarioTable (some 500) 4, .touch 1,
   .store .hardlimit_max_screen_on scenarioTable (some 900) 4, .suspend, .resume,
   .touchboost_work]

/-- The state of the spec's scenario D after the first touch: screen on, no wakeup
kick, touchboost at level LO with the window 300..1000 in force. -/
def touchboostLoState : State :=
  run scenarioConsts (initState scenarioConsts)
    [.store .touchboost_delay scenarioTable (some 500) 4, .touch 1]

/-- A frequency table that lost its upper steps: 100 and 200, then the terminator. -/
def reducedTable : List Nat :=
  [100, 200, 4294967294]

/-- Consecutive touch reports, in order, with no other event in between. -/
def report_touches (K : Consts) (s : State) (finger_counts : List Nat) : State :=
  finger_counts.foldl (fun st n => touchboost_report_touch K n st) s

/-- Each finger count of the list exceeds the one before it, the first one exceeding
`previous`; from `previous = 0` these are the strictly increasing nonzero sequences. -/
def increasing_from (previous : Nat) : List Nat → Prop
  | [] => True
  | n :: rest => previous < n ∧ increasing_from n rest

/-- The spec's scenario D before the first touch: touchboost enabled with a 500 ms
delay and the threshold `touchboost_eventcount` set to 3. -/
def scenarioDState : State :=
  run scenarioConsts (initState scenarioConsts)
    [.store .touchboost_delay scenarioTable (some 500) 4,
     .store .touchboost_eventcount scenarioTable (some 3) 2]

/-- The number of reports of the list with a nonzero finger count. -/
def nonzero_reports : List Nat → Nat
  | [] => 0
  | n :: rest => (if n ≠ 0 then 1 else 0) + nonzero_reports rest

/-! ## Helper lemmas -/

/-- The table scan finds exactly the entries that precede the terminator. -/
theorem table_has_frequency_iff (K : Consts) (table : List Nat) (v : Nat) :
    table_has_frequency K table v = true ↔ v ∈ table_entries K table := by
  induction table with
  | nil => simp [table_has_frequency, table_entries]
  | cons f rest ih =>
    unfold table_entries at ih ⊢
    by_cases hend : f = K.CPUFREQ_TABLE_END
    · simp [table_has_frequency, hend]
    · by_cases hv : f = v
      · simp [table_has_frequency, hend, List.takeWhile_cons, hv]
      · simp [table_has_frequency, hend, List.takeWhile_cons, hv, ih]
        intro h; exact absurd h.symm hv

/-- The recomputation writes the two effective limits and nothing else. -/
theorem reapply_hard_limits_eq (K : Consts) (s : State) :
    reapply_hard_limits K s =
      { s with
        current_limit_min := (effective_limits K s).1
        current_limit_max := (effective_limits K s).2 } := by
  unfold effective_limits reapply_hard_limits
  split_ifs <;> rfl

/-- With an ordered configuration and the kick frequency at most the screen-on maximum,
the recomputed pair is ordered. -/
theorem effective_limits_ordered (K : Consts) (s : State) (hord : config_ordered s)
    (hkick : s.wakeup_kick_freq ≤ s.hardlimit_max_screen_on) :
    (effective_limits K s).1 ≤ (effective_limits K s).2 := by
  unfold config_ordered at hord
  simp only [effective_limits, reapply_hard_limits]
  split_ifs <;> simp_all

/-- An event that ends with the screen-on pair ordered keeps the kick frequency at most
the screen-on maximum. -/
theorem wakeup_kick_le_max_step (K : Consts) (s : State) (e : Event)
    (hkick : s.wakeup_kick_freq ≤ s.hardlimit_max_screen_on)
    (hord : (step K s e).hardlimit_min_screen_on ≤ (step K s e).hardlimit_max_screen_on) :
    (step K s e).wakeup_kick_freq ≤ (step K s e).hardlimit_max_screen_on := by
  cases e with
  | store fld table buf count =>
    cases buf with
    | none => cases fld <;> exact hkick
    | some v =>
      cases fld <;> simp only [step, sysfs_store, hardlimit_max_screen_on_store,
        hardlimit_max_screen_off_store, hardlimit_min_screen_on_store,
        hardlimit_min_screen_off_store, wakeup_kick_freq_store, wakeup_kick_delay_store,
        touchboost_lo_freq_store, touchboost_hi_freq_store, touchboost_delay_store,
        touchboost_eventcount_store, userspace_dvfs_lock_store, reapply_hard_limits_eq]
        at hord ⊢
        <;> split_ifs at hord ⊢ <;> simp_all
  | suspend => simpa [step, cpufreq_hardlimit_suspend, reapply_hard_limits_eq] using hkick
  | resume =>
    simp only [step, cpufreq_hardlimit_resume, reapply_hard_limits_eq]
    split_ifs <;> simpa using hkick
  | touch n =>
    simp only [step, touchboost_report_touch, reapply_hard_limits_eq]
    split_ifs <;> simpa using hkick
  | wakeup_kick_work =>
    simp only [step]
    split <;> simpa [stop_wakeup_kick, reapply_hard_limits_eq] using hkick
  | touchboost_work =>
    simp only [step]
    split <;> simpa [stop_touchboost, reapply_hard_limits_eq] using hkick

/-- An event that ends in an ordered configuration keeps the effective limits ordered. -/
theorem limits_ordered_step (K : Consts) (s : State) (e : Event)
    (hlim : s.current_limit_min ≤ s.current_limit_max)
    (hkick : s.wakeup_kick_freq ≤ s.hardlimit_max_screen_on)
    (hord : config_ordered (step K s e)) :
    (step K s e).current_limit_min ≤ (step K s e).current_limit_max := by
  have hk := wakeup_kick_le_max_step K s e hkick hord.1
  cases e with
  | store fld table buf count =>
    cases buf with
    | none => cases fld <;> exact hlim
    | some v =>
      cases fld <;> simp only [step, sysfs_store, hardlimit_max_screen_on_store,
        hardlimit_max_screen_off_store, hardlimit_min_screen_on_store,
        hardlimit_min_screen_off_store, wakeup_kick_freq_store, wakeup_kick_delay_store,
        touchboost_lo_freq_store, touchboost_hi_freq_store, touchboost_delay_store,
        touchboost_eventcount_store, userspace_dvfs_lock_store, reapply_hard_limits_eq]
        at hord hk ⊢
        <;> split_ifs at hord hk ⊢
        <;> first
          | exact hlim
          | exact effective_limits_ordered K _ hord hk
  | suspend =>
    simp only [step, cpufreq_hardlimit_suspend, reapply_hard_limits_eq] at hord hk ⊢
    exact effective_limits_ordered K _ hord hk
  | resume =>
    simp only [step, cpufreq_hardlimit_resume, reapply_hard_limits_eq] at hord hk ⊢
    split_ifs at hord hk ⊢ <;> exact effective_limits_ordered K _ hord hk
  | touch n =>
    simp only [step, touchboost_report_touch, reapply_hard_limits_eq] at hord hk ⊢
    split_ifs at hord hk ⊢
      <;> first
        | exact hlim
        | exact effective_limits_ordered K _ hord hk
  | wakeup_kick_work =>
    cases hw : s.stop_wakeup_kick_work with
    | none => simp only [step, hw]; exact hlim
    | some d =>
      simp only [step, hw, stop_wakeup_kick, reapply_hard_limits_eq] at hord hk ⊢
      exact effective_limits_ordered K _ hord hk
  | touchboost_work =>
    cases hw : s.stop_touchboost_work with
    | none => simp only [step, hw]; exact hlim
    | some d =>
      simp only [step, hw, stop_touchboost, reapply_hard_limits_eq] at hord hk ⊢
      exact effective_limits_ordered K _ hord hk

/-- The effective limits stay ordered along a run whose configuration stays ordered. -/
theorem limits_ordered_run (K : Consts) (events : List Event) :
    ∀ s : State, s.current_limit_min ≤ s.current_limit_max →
      s.wakeup_kick_freq ≤ s.hardlimit_max_screen_on →
      ordered_along K s events →
      (run K s events).current_limit_min ≤ (run K s events).current_limit_max := by
  induction events with
  | nil => intro s hlim _ _; exact hlim
  | cons e rest ih =>
    intro s hlim hkick hord
    have hstep := limits_ordered_step K s e hlim hkick hord.1
    have hk := wakeup_kick_le_max_step K s e hkick hord.1.1
    exact ih (step K s e) hstep hk hord.2


/-- In every reachable state the kick delay is within the range its store accepts. -/
theorem reachable_wakeup_kick_delay_range (K : Consts) (s : State)
    (hK : K.CPUFREQ_HARDLIMIT_WAKEUP_KICK_DISABLED ≤ K.CPUFREQ_HARDLIMIT_WAKEUP_KICK_DELAY_MAX)
    (hs : Reachable K s) :
    K.CPUFREQ_HARDLIMIT_WAKEUP_KICK_DISABLED ≤ s.wakeup_kick_delay
      ∧ s.wakeup_kick_delay ≤ K.CPUFREQ_HARDLIMIT_WAKEUP_KICK_DELAY_MAX := by
  induction hs with
  | init => exact ⟨le_refl _, hK⟩
  | @next s e _ ih =>
    cases e with
    | store fld table buf count =>
      cases buf with
      | none => cases fld <;> exact ih
      | some v =>
        cases fld <;> simp only [step, sysfs_store, hardlimit_max_screen_on_store,
          hardlimit_max_screen_off_store, hardlimit_min_screen_on_store,
          hardlimit_min_screen_off_store, wakeup_kick_freq_store, wakeup_kick_delay_store,
          touchboost_lo_freq_store, touchboost_hi_freq_store, touchboost_delay_store,
          touchboost_eventcount_store, userspace_dvfs_lock_store, reapply_hard_limits_eq]
          <;> split_ifs <;> simp_all
    | suspend =>
      simpa [step, cpufreq_hardlimit_suspend, reapply_hard_limits_eq] using ih
    | resume =>
      simp only [step, cpufreq_hardlimit_resume, reapply_hard_limits_eq]
      split_ifs <;> simpa using ih
    | touch n =>
      simp only [step, touchboost_report_touch, reapply_hard_limits_eq]
      split_ifs <;> simpa using ih
    | wakeup_kick_work =>
      cases hw : s.stop_wakeup_kick_work with
      | none => simp only [step, hw]; exact ih
      | some d =>
        simpa [step, hw, stop_wakeup_kick, reapply_hard_limits_eq] using ih
    | touchboost_work =>
      cases hw : s.stop_touchboost_work with
      | none => simp only [step, hw]; exact ih
      | some d =>
        simpa [step, hw, stop_touchboost, reapply_hard_limits_eq] using ih

/-- A successful return (`count`) is never the error value. -/
theorem count_ne_neg_EINVAL (count : Nat) : (count : Int) ≠ -EINVAL := by
  unfold EINVAL; omega

/-- Recomputing twice gives the pair of the first recomputation. -/
theorem effective_limits_reapply (K : Consts) (s : State) :
    effective_limits K (reapply_hard_limits K s) = effective_limits K s := by
  simp only [effective_limits, reapply_hard_limits]
  split_ifs <;> simp_all

/-- The first nonzero report of an enabled, inactive touchboost starts level LO and
the count at 1. -/
theorem touch_from_inactive (K : Consts) (s : State) (n : Nat)
    (hen : s.touchboost_delay ≠ K.CPUFREQ_HARDLIMIT_TOUCHBOOST_DISABLED)
    (hin : s.touchboost_active = K.CPUFREQ_HARDLIMIT_TOUCHBOOST_INACTIVE)
    (hn : n ≠ 0) :
    (touchboost_report_touch K n s).touchboost_active
        = K.CPUFREQ_HARDLIMIT_TOUCHBOOST_ACTIVE_LO
      ∧ (touchboost_report_touch K n s).touchevent_count = 1
      ∧ (touchboost_report_touch K n s).previous_finger_count = n
      ∧ (touchboost_report_touch K n s).touchboost_delay = s.touchboost_delay
      ∧ (touchboost_report_touch K n s).touchboost_eventcount = s.touchboost_eventcount := by
  simp [touchboost_report_touch, reapply_hard_limits_eq, hen, hin, hn]

/-- A report at level LO below the threshold with a larger finger count adds one to
the count and keeps the level. -/
theorem touch_from_lo (K : Consts) (s : State) (n : Nat)
    (hK : K.CPUFREQ_HARDLIMIT_TOUCHBOOST_ACTIVE_LO ≠ K.CPUFREQ_HARDLIMIT_TOUCHBOOST_INACTIVE)
    (hen : s.touchboost_delay ≠ K.CPUFREQ_HARDLIMIT_TOUCHBOOST_DISABLED)
    (hlo : s.touchboost_active = K.CPUFREQ_HARDLIMIT_TOUCHBOOST_ACTIVE_LO)
    (hprev : s.previous_finger_count < n)
    (hcount : s.touchevent_count < s.touchboost_eventcount)
    (hT : s.touchboost_eventcount < UINT_MOD) :
    (touchboost_report_touch K n s).touchboost_active
        = K.CPUFREQ_HARDLIMIT_TOUCHBOOST_ACTIVE_LO
      ∧ (touchboost_report_touch K n s).touchevent_count = s.touchevent_count + 1
      ∧ (touchboost_report_touch K n s).previous_finger_count = n
      ∧ (touchboost_report_touch K n s).touchboost_delay = s.touchboost_delay
      ∧ (touchboost_report_touch K n s).touchboost_eventcount = s.touchboost_eventcount := by
  have hn : n ≠ 0 := by omega
  have hmod : (s.touchevent_count + 1) % UINT_MOD = s.touchevent_count + 1 :=
    Nat.mod_eq_of_lt (by omega)
  simp [touchboost_report_touch, hen, hlo, hK, hn, hprev, hcount, hmod]

/-- A nonzero report at level LO with the count at the threshold raises the level to HI. -/
theorem touch_promotes (K : Consts) (s : State) (n : Nat)
    (hK : K.CPUFREQ_HARDLIMIT_TOUCHBOOST_ACTIVE_LO ≠ K.CPUFREQ_HARDLIMIT_TOUCHBOOST_INACTIVE)
    (hen : s.touchboost_delay ≠ K.CPUFREQ_HARDLIMIT_TOUCHBOOST_DISABLED)
    (hlo : s.touchboost_active = K.CPUFREQ_HARDLIMIT_TOUCHBOOST_ACTIVE_LO)
    (hn : n ≠ 0)
    (hcount : ¬ s.touchevent_count < s.touchboost_eventcount) :
    (touchboost_report_touch K n s).touchboost_active
      = K.CPUFREQ_HARDLIMIT_TOUCHBOOST_ACTIVE_HI := by
  simp [touchboost_report_touch, reapply_hard_limits_eq, hen, hlo, hK, hn, hcount]

/-- Increasing reports at level LO that stay within the threshold keep the level and
are all counted. -/
theorem report_touches_from_lo (K : Consts) (reports : List Nat)
    (hK : K.CPUFREQ_HARDLIMIT_TOUCHBOOST_ACTIVE_LO ≠ K.CPUFREQ_HARDLIMIT_TOUCHBOOST_INACTIVE) :
    ∀ s : State, s.touchboost_delay ≠ K.CPUFREQ_HARDLIMIT_TOUCHBOOST_DISABLED →
      s.touchboost_active = K.CPUFREQ_HARDLIMIT_TOUCHBOOST_ACTIVE_LO →
      increasing_from s.previous_finger_count reports →
      s.touchevent_count + reports.length ≤ s.touchboost_eventcount →
      s.touchboost_eventcount < UINT_MOD →
      (report_touches K s reports).touchboost_active
          = K.CPUFREQ_HARDLIMIT_TOUCHBOOST_ACTIVE_LO
        ∧ (report_touches K s reports).touchevent_count
          = s.touchevent_count + reports.length
        ∧ (report_touches K s reports).touchboost_delay = s.touchboost_delay
        ∧ (report_touches K s reports).touchboost_eventcount = s.touchboost_eventcount := by
  induction reports with
  | nil => intro s _ hlo _ _ _; exact ⟨hlo, rfl, rfl, rfl⟩
  | cons n rest ih =>
    intro s hen hlo hinc hlen hT
    have hlen' : s.touchevent_count + (rest.length + 1) ≤ s.touchboost_eventcount := by
      simpa using hlen
    obtain ⟨h1, h2, h3, h4, h5⟩ :=
      touch_from_lo K s n hK hen hlo hinc.1 (by omega) hT
    have := ih (touchboost_report_touch K n s) (by rw [h4]; exact hen) h1
      (by rw [h3]; exact hinc.2) (by rw [h2, h5]; omega) (by rw [h5]; exact hT)
    obtain ⟨g1, g2, g3, g4⟩ := this
    refine ⟨g1, ?_, ?_, ?_⟩
    · show (report_touches K (touchboost_report_touch K n s) rest).touchevent_count = _
      rw [g2, h2]; simp; omega
    · show (report_touches K (touchboost_report_touch K n s) rest).touchboost_delay = _
      rw [g3, h4]
    · show (report_touches K (touchboost_report_touch K n s) rest).touchboost_eventcount = _
      rw [g4, h5]

/-- There are at most as many nonzero reports as reports. -/
theorem nonzero_reports_le_length (reports : List Nat) :
    nonzero_reports reports ≤ reports.length := by
  induction reports with
  | nil => exact le_refl _
  | cons n rest ih =>
    simp only [nonzero_reports, List.length_cons]
    split_ifs <;> omega

/-- With touchboost enabled a report of zero fingers only clears the remembered count. -/
theorem touch_zero (K : Consts) (s : State)
    (hen : s.touchboost_delay ≠ K.CPUFREQ_HARDLIMIT_TOUCHBOOST_DISABLED) :
    touchboost_report_touch K 0 s = { s with previous_finger_count := 0 } := by
  simp only [touchboost_report_touch, if_neg hen]
  split_ifs <;> first | rfl | (exfalso; simp_all)

/-- A nonzero report at level LO below the threshold keeps the level and adds at most
one to the count. -/
theorem touch_lo_below (K : Consts) (s : State) (n : Nat)
    (hK : K.CPUFREQ_HARDLIMIT_TOUCHBOOST_ACTIVE_LO ≠ K.CPUFREQ_HARDLIMIT_TOUCHBOOST_INACTIVE)
    (hen : s.touchboost_delay ≠ K.CPUFREQ_HARDLIMIT_TOUCHBOOST_DISABLED)
    (hlo : s.touchboost_active = K.CPUFREQ_HARDLIMIT_TOUCHBOOST_ACTIVE_LO)
    (hn : n ≠ 0)
    (hcount : s.touchevent_count < s.touchboost_eventcount) :
    (touchboost_report_touch K n s).touchboost_active
        = K.CPUFREQ_HARDLIMIT_TOUCHBOOST_ACTIVE_LO
      ∧ (touchboost_report_touch K n s).touchevent_count
        = (if s.previous_finger_count < n then (s.touchevent_count + 1) % UINT_MOD
            else s.touchevent_count)
      ∧ (touchboost_report_touch K n s).touchboost_delay = s.touchboost_delay
      ∧ (touchboost_report_touch K n s).touchboost_eventcount = s.touchboost_eventcount := by
  by_cases hprev : s.previous_finger_count < n
  · simp [touchboost_report_touch, hen, hlo, hK, hn, hprev, hcount]
  · simp [touchboost_report_touch, hen, hlo, hK, hn, hprev, hcount]

/-- Reports at level LO keep the level as long as the count plus the number of nonzero
reports stays within the threshold. -/
theorem report_touches_lo_stays (K : Consts) (reports : List Nat)
    (hK : K.CPUFREQ_HARDLIMIT_TOUCHBOOST_ACTIVE_LO ≠ K.CPUFREQ_HARDLIMIT_TOUCHBOOST_INACTIVE) :
    ∀ s : State, s.touchboost_delay ≠ K.CPUFREQ_HARDLIMIT_TOUCHBOOST_DISABLED →
      s.touchboost_active = K.CPUFREQ_HARDLIMIT_TOUCHBOOST_ACTIVE_LO →
      s.touchevent_count + nonzero_reports reports ≤ s.touchboost_eventcount →
      (report_touches K s reports).touchboost_active
        = K.CPUFREQ_HARDLIMIT_TOUCHBOOST_ACTIVE_LO := by
  induction reports with
  | nil => intro s _ hlo _; exact hlo
  | cons n rest ih =>
    intro s hen hlo hle
    show (report_touches K (touchboost_report_touch K n s) rest).touchboost_active = _
    by_cases hn : n = 0
    · subst hn
      rw [touch_zero K s hen]
      have hle' : s.touchevent_count + nonzero_reports rest ≤ s.touchboost_eventcount := by
        simpa [nonzero_reports] using hle
      exact ih { s with previous_finger_count := 0 } hen hlo hle'
    · have hle' : s.touchevent_count + (1 + nonzero_reports rest)
          ≤ s.touchboost_eventcount := by
        simpa [nonzero_reports, hn] using hle
      obtain ⟨h1, h2, h3, h4⟩ := touch_lo_below K s n hK hen hlo hn (by omega)
      apply ih (touchboost_report_touch K n s) (by rw [h3]; exact hen) h1
      rw [h2, h4]
      have hmod : (s.touchevent_count + 1) % UINT_MOD ≤ s.touchevent_count + 1 :=
        Nat.mod_le _ _
      split_ifs <;> omega

/-- From level INACTIVE, reports of which at most `touchboost_eventcount` are nonzero
end at level INACTIVE or LO. -/
theorem report_touches_inactive_below (K : Consts) (reports : List Nat)
    (hK : K.CPUFREQ_HARDLIMIT_TOUCHBOOST_ACTIVE_LO ≠ K.CPUFREQ_HARDLIMIT_TOUCHBOOST_INACTIVE) :
    ∀ s : State, s.touchboost_delay ≠ K.CPUFREQ_HARDLIMIT_TOUCHBOOST_DISABLED →
      s.touchboost_active = K.CPUFREQ_HARDLIMIT_TOUCHBOOST_INACTIVE →
      nonzero_reports reports ≤ s.touchboost_eventcount →
      (report_touches K s reports).touchboost_active
          = K.CPUFREQ_HARDLIMIT_TOUCHBOOST_INACTIVE
        ∨ (report_touches K s reports).touchboost_active
          = K.CPUFREQ_HARDLIMIT_TOUCHBOOST_ACTIVE_LO := by
  induction reports with
  | nil => intro s _ hin _; exact Or.inl hin
  | cons n rest ih =>
    intro s hen hin hle
    show (report_touches K (touchboost_report_touch K n s) rest).touchboost_active = _
      ∨ (report_touches K (touchboost_report_touch K n s) rest).touchboost_active = _
    by_cases hn : n = 0
    · subst hn
      rw [touch_zero K s hen]
      have hle' : nonzero_reports rest ≤ s.touchboost_eventcount := by
        simpa [nonzero_reports] using hle
      exact ih { s with previous_finger_count := 0 } hen hin hle'
    · have hle' : 1 + nonzero_reports rest ≤ s.touchboost_eventcount := by
        simpa [nonzero_reports, hn] using hle
      obtain ⟨h1, h2, _, h4, h5⟩ := touch_from_inactive K s n hen hin hn
      right
      exact report_touches_lo_stays K rest hK (touchboost_report_touch K n s)
        (by rw [h4]; exact hen) h1 (by rw [h2, h5]; exact hle')

/-! ## The clamp and the recomputation -/

/-- C1: in every state with `current_limit_min ≤ current_limit_max`, for every requested
frequency `f`, `check_cpufreq_hardlimit f` is `max(current_limit_min, min(current_limit_max, f))`
and lies between `current_limit_min` and `current_limit_max`. -/
theorem check_cpufreq_hardlimit_clamps (s : State) (f : Nat)
    (h : s.current_limit_min ≤ s.current_limit_max) :
    check_cpufreq_hardlimit s f = max s.current_limit_min (min s.current_limit_max f)
      ∧ s.current_limit_min ≤ check_cpufreq_hardlimit s f
      ∧ check_cpufreq_hardlimit s f ≤ s.current_limit_max := by
  refine ⟨rfl, ?_, ?_⟩
  · exact le_max_left _ _
  · exact max_le h (min_le_left _ _)

/-- Scenario A of the spec (window 200..1000, screen on, no trigger): the clamp sends
50 to 200, 2000 to 1000 and 500 to 500. -/
theorem check_cpufreq_hardlimit_clamps_witness :
    (initState scenarioConsts).current_limit_min ≤ (initState scenarioConsts).current_limit_max
      ∧ check_cpufreq_hardlimit (initState scenarioConsts) 50 = 200
      ∧ check_cpufreq_hardlimit (initState scenarioConsts) 2000 = 1000
      ∧ check_cpufreq_hardlimit (initState scenarioConsts) 500 = 500
      ∧ (initState scenarioConsts).current_limit_min
          ≤ check_cpufreq_hardlimit (initState scenarioConsts) 2000
      ∧ check_cpufreq_hardlimit (initState scenarioConsts) 2000
          ≤ (initState scenarioConsts).current_limit_max :=
  ⟨by decide, by decide, by decide, by decide,
    (check_cpufreq_hardlimit_clamps (initState scenarioConsts) 2000 (by decide)).2⟩

/-- C4: with the screen on and the wakeup kick active, `reapply_hard_limits` sets
`current_limit_min` to `wakeup_kick_freq` and `current_limit_max` to
`hardlimit_max_screen_on`, whatever the kick frequency and the touchboost level. -/
theorem reapply_hard_limits_wakeup_kick (K : Consts) (s : State)
    (hscreen : s.current_screen_state = K.CPUFREQ_HARDLIMIT_SCREEN_ON)
    (hkick : s.wakeup_kick_active = K.CPUFREQ_HARDLIMIT_WAKEUP_KICK_ACTIVE) :
    (reapply_hard_limits K s).current_limit_min = s.wakeup_kick_freq
      ∧ (reapply_hard_limits K s).current_limit_max = s.hardlimit_max_screen_on := by
  simp [reapply_hard_limits, hscreen, hkick]

/-- C4 at a state whose kick frequency (2000) exceeds the screen-on maximum (1000)
while touchboost is at its high level: the minimum is the kick frequency, the maximum
stays the screen-on maximum. -/
theorem reapply_hard_limits_wakeup_kick_witness :
    ({ initState scenarioConsts with
        wakeup_kick_active := 1, wakeup_kick_freq := 2000, touchboost_active := 2 }
        : State).current_screen_state = scenarioConsts.CPUFREQ_HARDLIMIT_SCREEN_ON
      ∧ ({ initState scenarioConsts with
        wakeup_kick_active := 1, wakeup_kick_freq := 2000, touchboost_active := 2 }
        : State).wakeup_kick_active = scenarioConsts.CPUFREQ_HARDLIMIT_WAKEUP_KICK_ACTIVE
      ∧ (reapply_hard_limits scenarioConsts { initState scenarioConsts with
        wakeup_kick_active := 1, wakeup_kick_freq := 2000, touchboost_active := 2 }
        ).current_limit_min = 2000
      ∧ (reapply_hard_limits scenarioConsts { initState scenarioConsts with
        wakeup_kick_active := 1, wakeup_kick_freq := 2000, touchboost_active := 2 }
        ).current_limit_max = 1000 :=
  ⟨by decide, by decide,
    reapply_hard_limits_wakeup_kick scenarioConsts
      { initState scenarioConsts with
        wakeup_kick_active := 1, wakeup_kick_freq := 2000, touchboost_active := 2 }
      (by decide) (by decide)⟩

/-- C5: with the screen on and the wakeup kick inactive, `reapply_hard_limits` sets
`current_limit_max` to `hardlimit_max_screen_on` and `current_limit_min` to
`touchboost_lo_freq` at level LO, `touchboost_hi_freq` at level HI and
`hardlimit_min_screen_on` when touchboost is inactive (the flag values of the header
being pairwise distinct). -/
theorem reapply_hard_limits_screen_on_no_kick (K : Consts) (s : State)
    (hK_kick : K.CPUFREQ_HARDLIMIT_WAKEUP_KICK_INACTIVE ≠ K.CPUFREQ_HARDLIMIT_WAKEUP_KICK_ACTIVE)
    (hK_lo : K.CPUFREQ_HARDLIMIT_TOUCHBOOST_ACTIVE_LO ≠ K.CPUFREQ_HARDLIMIT_TOUCHBOOST_INACTIVE)
    (hK_hi : K.CPUFREQ_HARDLIMIT_TOUCHBOOST_ACTIVE_HI ≠ K.CPUFREQ_HARDLIMIT_TOUCHBOOST_INACTIVE)
    (hK_lohi : K.CPUFREQ_HARDLIMIT_TOUCHBOOST_ACTIVE_HI ≠ K.CPUFREQ_HARDLIMIT_TOUCHBOOST_ACTIVE_LO)
    (hscreen : s.current_screen_state = K.CPUFREQ_HARDLIMIT_SCREEN_ON)
    (hkick : s.wakeup_kick_active = K.CPUFREQ_HARDLIMIT_WAKEUP_KICK_INACTIVE) :
    (reapply_hard_limits K s).current_limit_max = s.hardlimit_max_screen_on
      ∧ (s.touchboost_active = K.CPUFREQ_HARDLIMIT_TOUCHBOOST_ACTIVE_LO →
          (reapply_hard_limits K s).current_limit_min = s.touchboost_lo_freq)
      ∧ (s.touchboost_active = K.CPUFREQ_HARDLIMIT_TOUCHBOOST_ACTIVE_HI →
          (reapply_hard_limits K s).current_limit_min = s.touchboost_hi_freq)
      ∧ (s.touchboost_active = K.CPUFREQ_HARDLIMIT_TOUCHBOOST_INACTIVE →
          (reapply_hard_limits K s).current_limit_min = s.hardlimit_min_screen_on) := by
  have hk : ¬ s.wakeup_kick_active = K.CPUFREQ_HARDLIMIT_WAKEUP_KICK_ACTIVE := by
    rw [hkick]; exact hK_kick
  refine ⟨?_, ?_, ?_, ?_⟩
  · unfold reapply_hard_limits
    rw [if_pos hscreen, if_neg hk]
    split_ifs <;> rfl
  · intro hlo
    simp [reapply_hard_limits, hscreen, hk, hlo, hK_lo]
  · intro hhi
    simp [reapply_hard_limits, hscreen, hk, hhi, hK_hi, hK_lohi]
  · intro hin
    simp [reapply_hard_limits, hscreen, hk, hin]

/-- C5 at a screen-on state with touchboost at level LO and lo frequency 300: the
window becomes 300..1000. -/
theorem reapply_hard_limits_screen_on_no_kick_witness :
    scenarioConsts.CPUFREQ_HARDLIMIT_WAKEUP_KICK_INACTIVE
        ≠ scenarioConsts.CPUFREQ_HARDLIMIT_WAKEUP_KICK_ACTIVE
      ∧ ({ initState scenarioConsts with touchboost_active := 1 } : State).touchboost_active
        = scenarioConsts.CPUFREQ_HARDLIMIT_TOUCHBOOST_ACTIVE_LO
      ∧ (reapply_hard_limits scenarioConsts
          { initState scenarioConsts with touchboost_active := 1 }).current_limit_max = 1000
      ∧ (reapply_hard_limits scenarioConsts
          { initState scenarioConsts with touchboost_active := 1 }).current_limit_min = 300 :=
  ⟨by decide, by decide,
    (reapply_hard_limits_screen_on_no_kick scenarioConsts
      { initState scenarioConsts with touchboost_active := 1 }
      (by decide) (by decide) (by decide) (by decide) (by decide) (by decide)).1,
    (reapply_hard_limits_screen_on_no_kick scenarioConsts
      { initState scenarioConsts with touchboost_active := 1 }
      (by decide) (by decide) (by decide) (by decide) (by decide) (by decide)).2.1
      (by decide)⟩

/-- C6: after `cpufreq_hardlimit_suspend`, from any state, the effective limits are the
screen-off pair, so the clamp is `max(min_screen_off, min(max_screen_off, f))` (the
two screen-state values of the header being distinct). -/
theorem cpufreq_hardlimit_suspend_limits (K : Consts) (s : State)
    (hK : K.CPUFREQ_HARDLIMIT_SCREEN_OFF ≠ K.CPUFREQ_HARDLIMIT_SCREEN_ON) :
    (cpufreq_hardlimit_suspend K s).current_limit_min = s.hardlimit_min_screen_off
      ∧ (cpufreq_hardlimit_suspend K s).current_limit_max = s.hardlimit_max_screen_off
      ∧ ∀ f : Nat, check_cpufreq_hardlimit (cpufreq_hardlimit_suspend K s) f
          = max s.hardlimit_min_screen_off (min s.hardlimit_max_screen_off f) := by
  have hmin : (cpufreq_hardlimit_suspend K s).current_limit_min
      = s.hardlimit_min_screen_off := by
    simp [cpufreq_hardlimit_suspend, reapply_hard_limits, hK]
  have hmax : (cpufreq_hardlimit_suspend K s).current_limit_max
      = s.hardlimit_max_screen_off := by
    simp [cpufreq_hardlimit_suspend, reapply_hard_limits, hK]
  refine ⟨hmin, hmax, ?_⟩
  intro f
  unfold check_cpufreq_hardlimit
  rw [hmin, hmax]

/-- Scenario B of the spec: suspending from a state with the wakeup kick and the
touchboost both active (screen-off window 100..500) makes the clamp send 1000 to 500. -/
theorem cpufreq_hardlimit_suspend_limits_witness :
    scenarioConsts.CPUFREQ_HARDLIMIT_SCREEN_OFF ≠ scenarioConsts.CPUFREQ_HARDLIMIT_SCREEN_ON
      ∧ check_cpufreq_hardlimit (cpufreq_hardlimit_suspend scenarioConsts
          { initState scenarioConsts with wakeup_kick_active := 1, touchboost_active := 2 })
          1000 = 500 :=
  ⟨by decide,
    ((cpufreq_hardlimit_suspend_limits scenarioConsts
      { initState scenarioConsts with wakeup_kick_active := 1, touchboost_active := 2 }
      (by decide)).2.2 1000).trans (by decide)⟩

/-! ## The ordering invariants -/

/-- C2, as the code has it: in every state reached from the initial state (stock
screen-on minimum at most the stock maximum) by a finite sequence of events after each
of which the configuration is ordered (`config_ordered`: each screen state's minimum
at most its maximum, both touchboost frequencies at most the screen-on maximum),
`current_limit_min ≤ current_limit_max`. -/
theorem current_limits_ordered_along (K : Consts) (events : List Event)
    (hstock : K.CPUFREQ_HARDLIMIT_MIN_SCREEN_ON_STOCK ≤ K.CPUFREQ_HARDLIMIT_MAX_SCREEN_ON_STOCK)
    (hord : ordered_along K (initState K) events) :
    (run K (initState K) events).current_limit_min
      ≤ (run K (initState K) events).current_limit_max :=
  limits_ordered_run K events (initState K) hstock hstock hord

/-- C2 as amended, on the events of `scenarioEvents`. -/
theorem current_limits_ordered_along_witness :
    scenarioConsts.CPUFREQ_HARDLIMIT_MIN_SCREEN_ON_STOCK
        ≤ scenarioConsts.CPUFREQ_HARDLIMIT_MAX_SCREEN_ON_STOCK
      ∧ ordered_along scenarioConsts (initState scenarioConsts) scenarioEvents
      ∧ (run scenarioConsts (initState scenarioConsts) scenarioEvents).current_limit_min
        ≤ (run scenarioConsts (initState scenarioConsts) scenarioEvents).current_limit_max :=
  ⟨by decide,
    ⟨by decide, by decide, by decide, by decide, by decide, by decide, trivial⟩,
    current_limits_ordered_along scenarioConsts scenarioEvents (by decide)
      ⟨by decide, by decide, by decide, by decide, by decide, by decide, trivial⟩⟩

/-- C2 as stated fails: from the initial state of the scenario constants (both default
pairs ordered, every default an entry of the table), the single accepted write
`scaling_max_freq_screen_on = 100` leaves `current_limit_min = 200` above
`current_limit_max = 100`. -/
theorem current_limits_inverted_by_max_store :
    (initState scenarioConsts).hardlimit_min_screen_on
        ≤ (initState scenarioConsts).hardlimit_max_screen_on
      ∧ (initState scenarioConsts).hardlimit_min_screen_off
        ≤ (initState scenarioConsts).hardlimit_max_screen_off
      ∧ (∀ f ∈ [(initState scenarioConsts).hardlimit_max_screen_on,
            (initState scenarioConsts).hardlimit_max_screen_off,
            (initState scenarioConsts).hardlimit_min_screen_on,
            (initState scenarioConsts).hardlimit_min_screen_off,
            (initState scenarioConsts).wakeup_kick_freq,
            (initState scenarioConsts).touchboost_lo_freq,
            (initState scenarioConsts).touchboost_hi_freq],
          f ∈ table_entries scenarioConsts scenarioTable)
      ∧ (run scenarioConsts (initState scenarioConsts)
          [.store .hardlimit_max_screen_on scenarioTable (some 100) 4]).current_limit_min = 200
      ∧ (run scenarioConsts (initState scenarioConsts)
          [.store .hardlimit_max_screen_on scenarioTable (some 100) 4]).current_limit_max = 100
      ∧ ¬ ((run scenarioConsts (initState scenarioConsts)
          [.store .hardlimit_max_screen_on scenarioTable (some 100) 4]).current_limit_min
        ≤ (run scenarioConsts (initState scenarioConsts)
          [.store .hardlimit_max_screen_on scenarioTable (some 100) 4]).current_limit_max) := by
  decide

/-- C3: `touchboost_lo_freq ≤ touchboost_hi_freq` is preserved by every event: each of
the sysfs stores with any table and input, suspend, resume, a touch report and the two
delayed works; `stop_wakeup_kick` and `stop_touchboost` preserve it also when called
on a state directly. -/
theorem touchboost_order_preserved (K : Consts) (s : State) (e : Event)
    (h : s.touchboost_lo_freq ≤ s.touchboost_hi_freq) :
    (step K s e).touchboost_lo_freq ≤ (step K s e).touchboost_hi_freq
      ∧ (stop_wakeup_kick K s).touchboost_lo_freq ≤ (stop_wakeup_kick K s).touchboost_hi_freq
      ∧ (stop_touchboost K s).touchboost_lo_freq ≤ (stop_touchboost K s).touchboost_hi_freq := by
  refine ⟨?_, by simpa [stop_wakeup_kick, reapply_hard_limits_eq] using h,
    by simpa [stop_touchboost, reapply_hard_limits_eq] using h⟩
  cases e with
  | store fld table buf count =>
    cases buf with
    | none => cases fld <;> exact h
    | some v =>
      cases fld <;> simp only [step, sysfs_store, hardlimit_max_screen_on_store,
        hardlimit_max_screen_off_store, hardlimit_min_screen_on_store,
        hardlimit_min_screen_off_store, wakeup_kick_freq_store, wakeup_kick_delay_store,
        touchboost_lo_freq_store, touchboost_hi_freq_store, touchboost_delay_store,
        touchboost_eventcount_store, userspace_dvfs_lock_store, reapply_hard_limits_eq]
        <;> split_ifs <;> simp_all
  | suspend => simpa [step, cpufreq_hardlimit_suspend, reapply_hard_limits_eq] using h
  | resume =>
    simp only [step, cpufreq_hardlimit_resume, reapply_hard_limits_eq]
    split_ifs <;> simpa using h
  | touch n =>
    simp only [step, touchboost_report_touch, reapply_hard_limits_eq]
    split_ifs <;> simpa using h
  | wakeup_kick_work =>
    cases hw : s.stop_wakeup_kick_work with
    | none => simp only [step, hw]; exact h
    | some d => simpa [step, hw, stop_wakeup_kick, reapply_hard_limits_eq] using h
  | touchboost_work =>
    cases hw : s.stop_touchboost_work with
    | none => simp only [step, hw]; exact h
    | some d => simpa [step, hw, stop_touchboost, reapply_hard_limits_eq] using h

/-- C3 at the initial state (lo 300, hi 800): writing `touchboost_lo_freq = 900` raises
the hi frequency with it. -/
theorem touchboost_order_preserved_witness :
    (initState scenarioConsts).touchboost_lo_freq ≤ (initState scenarioConsts).touchboost_hi_freq
      ∧ (step scenarioConsts (initState scenarioConsts)
          (.store .touchboost_lo_freq scenarioTable (some 900) 4)).touchboost_lo_freq
        ≤ (step scenarioConsts (initState scenarioConsts)
          (.store .touchboost_lo_freq scenarioTable (some 900) 4)).touchboost_hi_freq :=
  ⟨by decide,
    (touchboost_order_preserved scenarioConsts (initState scenarioConsts)
      (.store .touchboost_lo_freq scenarioTable (some 900) 4) (by decide)).1⟩

/-! ## The sysfs stores -/

/-- C7 fails on the code: in `touchboostLoState` (screen on, kick inactive, touchboost at
level LO, limits equal to the recomputation, 300..1000) the accepted write
`touchboost_lo_freq = 400` returns `count` and sets the field, but the effective limits
stay 300..1000 while the recomputation of the new state is 400..1000. -/
theorem touchboost_lo_freq_store_leaves_stale_limits :
    touchboostLoState.current_screen_state = scenarioConsts.CPUFREQ_HARDLIMIT_SCREEN_ON
      ∧ touchboostLoState.wakeup_kick_active
        = scenarioConsts.CPUFREQ_HARDLIMIT_WAKEUP_KICK_INACTIVE
      ∧ touchboostLoState.touchboost_active
        = scenarioConsts.CPUFREQ_HARDLIMIT_TOUCHBOOST_ACTIVE_LO
      ∧ (touchboostLoState.current_limit_min, touchboostLoState.current_limit_max)
        = effective_limits scenarioConsts touchboostLoState
      ∧ (touchboost_lo_freq_store scenarioConsts scenarioTable (some 400) 4
          touchboostLoState).1 = 4
      ∧ (touchboost_lo_freq_store scenarioConsts scenarioTable (some 400) 4
          touchboostLoState).2.touchboost_lo_freq = 400
      ∧ ((touchboost_lo_freq_store scenarioConsts scenarioTable (some 400) 4
            touchboostLoState).2.current_limit_min,
          (touchboost_lo_freq_store scenarioConsts scenarioTable (some 400) 4
            touchboostLoState).2.current_limit_max) = (300, 1000)
      ∧ effective_limits scenarioConsts
          (touchboost_lo_freq_store scenarioConsts scenarioTable (some 400) 4
            touchboostLoState).2 = (400, 1000) := by
  decide

/-- C8, as the code has it: for each frequency-valued attribute, every state, every
table and every value `v` that is not an entry of the table, the store leaves the state
unchanged; it returns `-EINVAL` when `v` differs from the attribute's current value and
`count` when `v` is the current value. -/
theorem frequency_store_unlisted_value (K : Consts) (fld : Field) (table : List Nat)
    (v count : Nat) (s : State) (hfld : fld.isFrequency = true)
    (hv : v ∉ table_entries K table) :
    (sysfs_store K fld table (some v) count s).2 = s
      ∧ (sysfs_store K fld table (some v) count s).1
        = if v = fld.get s then (count : Int) else -EINVAL := by
  have hnot : table_has_frequency K table v = false := by
    cases hb : table_has_frequency K table v with
    | false => rfl
    | true => exact absurd ((table_has_frequency_iff K table v).mp hb) hv
  cases fld <;> first
    | exact absurd hfld (by decide)
    | (simp only [sysfs_store, hardlimit_max_screen_on_store, hardlimit_max_screen_off_store,
        hardlimit_min_screen_on_store, hardlimit_min_screen_off_store, wakeup_kick_freq_store,
        touchboost_lo_freq_store, touchboost_hi_freq_store, Field.get, hnot]
       split_ifs <;> simp_all)

/-- C8 as amended, on the reduced table: writing 1000 (not an entry; the current
screen-on maximum of the initial state) returns `count`, writing 300 (not an entry, not
the current value) returns `-EINVAL`, and the state is unchanged either way. -/
theorem frequency_store_unlisted_value_witness :
    1000 ∉ table_entries scenarioConsts reducedTable
      ∧ 300 ∉ table_entries scenarioConsts reducedTable
      ∧ sysfs_store scenarioConsts .hardlimit_max_screen_on reducedTable (some 1000) 4
          (initState scenarioConsts) = (4, initState scenarioConsts)
      ∧ sysfs_store scenarioConsts .hardlimit_max_screen_on reducedTable (some 300) 4
          (initState scenarioConsts) = (-EINVAL, initState scenarioConsts) :=
  ⟨by decide, by decide,
    Prod.ext
      ((frequency_store_unlisted_value scenarioConsts .hardlimit_max_screen_on reducedTable
        1000 4 (initState scenarioConsts) rfl (by decide)).2.trans (by decide))
      (frequency_store_unlisted_value scenarioConsts .hardlimit_max_screen_on reducedTable
        1000 4 (initState scenarioConsts) rfl (by decide)).1,
    Prod.ext
      ((frequency_store_unlisted_value scenarioConsts .hardlimit_max_screen_on reducedTable
        300 4 (initState scenarioConsts) rfl (by decide)).2.trans (by decide))
      (frequency_store_unlisted_value scenarioConsts .hardlimit_max_screen_on reducedTable
        300 4 (initState scenarioConsts) rfl (by decide)).1⟩

/-- C8 as stated fails: after the accepted write `scaling_max_freq_screen_on = 500` the
table loses its upper steps; 500 is then not an entry of the table, yet writing 500
again returns `count` (4), not `-EINVAL`. -/
theorem frequency_store_unlisted_current_value_accepted :
    500 ∉ table_entries scenarioConsts reducedTable
      ∧ (hardlimit_max_screen_on_store scenarioConsts reducedTable (some 500) 4
          (run scenarioConsts (initState scenarioConsts)
            [.store .hardlimit_max_screen_on scenarioTable (some 500) 4])).1 = 4
      ∧ (hardlimit_max_screen_on_store scenarioConsts reducedTable (some 500) 4
          (run scenarioConsts (initState scenarioConsts)
            [.store .hardlimit_max_screen_on scenarioTable (some 500) 4])).1 ≠ -EINVAL := by
  decide

/-- C9: for every writable attribute and every state the module can be in, writing the
attribute's current value returns `count` and leaves the whole state, effective limits
included, unchanged (the header's kick-delay range being non-empty). -/
theorem store_current_value_unchanged (K : Consts) (s : State) (fld : Field)
    (table : List Nat) (count : Nat)
    (hK : K.CPUFREQ_HARDLIMIT_WAKEUP_KICK_DISABLED ≤ K.CPUFREQ_HARDLIMIT_WAKEUP_KICK_DELAY_MAX)
    (hs : Reachable K s) :
    sysfs_store K fld table (some (fld.get s)) count s = ((count : Int), s) := by
  have hr := reachable_wakeup_kick_delay_range K s hK hs
  cases fld <;> simp [sysfs_store, hardlimit_max_screen_on_store,
    hardlimit_max_screen_off_store, hardlimit_min_screen_on_store,
    hardlimit_min_screen_off_store, wakeup_kick_freq_store, wakeup_kick_delay_store,
    touchboost_lo_freq_store, touchboost_hi_freq_store, touchboost_delay_store,
    touchboost_eventcount_store, userspace_dvfs_lock_store, Field.get, hr.1, hr.2]

/-- C9 for `wakeup_kick_delay`, the one store without a same-value shortcut: after the
delay was set to 2000, writing 2000 again returns `count` and changes nothing. -/
theorem store_current_value_unchanged_witness :
    scenarioConsts.CPUFREQ_HARDLIMIT_WAKEUP_KICK_DISABLED
        ≤ scenarioConsts.CPUFREQ_HARDLIMIT_WAKEUP_KICK_DELAY_MAX
      ∧ Reachable scenarioConsts (step scenarioConsts (initState scenarioConsts)
          (.store .wakeup_kick_delay scenarioTable (some 2000) 4))
      ∧ sysfs_store scenarioConsts .wakeup_kick_delay scenarioTable (some 2000) 7
          (step scenarioConsts (initState scenarioConsts)
            (.store .wakeup_kick_delay scenarioTable (some 2000) 4))
        = (7, step scenarioConsts (initState scenarioConsts)
            (.store .wakeup_kick_delay scenarioTable (some 2000) 4)) :=
  ⟨by decide, Reachable.next _ Reachable.init,
    store_current_value_unchanged scenarioConsts
      (step scenarioConsts (initState scenarioConsts)
        (.store .wakeup_kick_delay scenarioTable (some 2000) 4))
      .wakeup_kick_delay scenarioTable 7 (by decide) (Reachable.next _ Reachable.init)⟩

/-- C10: for every state and every table entry `v`: if `v` differs from the current
`hardlimit_max_screen_on`, `hardlimit_max_screen_on_store(v)` returns `count` and
leaves `hardlimit_max_screen_on = v` and `wakeup_kick_freq = min(old, v)`, hence
`wakeup_kick_freq ≤ hardlimit_max_screen_on`; if `v` differs from the current
`hardlimit_min_screen_on`, `hardlimit_min_screen_on_store(v)` returns `count` and leaves
`hardlimit_min_screen_on = v` and `wakeup_kick_freq = max(old, v)`. -/
theorem screen_on_stores_adjust_wakeup_kick (K : Consts) (s : State) (table : List Nat)
    (v count : Nat) (hv : v ∈ table_entries K table) :
    (v ≠ s.hardlimit_max_screen_on →
        (hardlimit_max_screen_on_store K table (some v) count s).1 = (count : Int)
          ∧ (hardlimit_max_screen_on_store K table (some v) count s).2.hardlimit_max_screen_on
            = v
          ∧ (hardlimit_max_screen_on_store K table (some v) count s).2.wakeup_kick_freq
            = min s.wakeup_kick_freq v
          ∧ (hardlimit_max_screen_on_store K table (some v) count s).2.wakeup_kick_freq
            ≤ (hardlimit_max_screen_on_store K table (some v) count s).2.hardlimit_max_screen_on)
      ∧ (v ≠ s.hardlimit_min_screen_on →
        (hardlimit_min_screen_on_store K table (some v) count s).1 = (count : Int)
          ∧ (hardlimit_min_screen_on_store K table (some v) count s).2.hardlimit_min_screen_on
            = v
          ∧ (hardlimit_min_screen_on_store K table (some v) count s).2.wakeup_kick_freq
            = max s.wakeup_kick_freq v) := by
  have hhas : table_has_frequency K table v = true := (table_has_frequency_iff K table v).mpr hv
  constructor
  · intro hne
    simp only [hardlimit_max_screen_on_store, if_neg hne, hhas, if_true,
      reapply_hard_limits_eq]
    split_ifs with hlt
    · exact ⟨trivial, rfl, (min_eq_right (le_of_lt hlt)).symm, le_refl _⟩
    · exact ⟨trivial, rfl, (min_eq_left (not_lt.mp hlt)).symm, not_lt.mp hlt⟩
  · intro hne
    simp only [hardlimit_min_screen_on_store, if_neg hne, hhas, if_true,
      reapply_hard_limits_eq]
    split_ifs with hgt
    · exact ⟨trivial, rfl, (max_eq_right (le_of_lt hgt)).symm⟩
    · exact ⟨trivial, rfl, (max_eq_left (not_lt.mp hgt)).symm⟩

/-- Scenario E of the spec: with the kick frequency at 600, writing
`scaling_max_freq_screen_on = 500` is accepted and forces the kick frequency down to 500. -/
theorem screen_on_stores_adjust_wakeup_kick_witness :
    500 ∈ table_entries scenarioConsts scenarioTable
      ∧ 500 ≠ ({ initState scenarioConsts with wakeup_kick_freq := 600 }
          : State).hardlimit_max_screen_on
      ∧ (hardlimit_max_screen_on_store scenarioConsts scenarioTable (some 500) 4
          { initState scenarioConsts with wakeup_kick_freq := 600 }).1 = 4
      ∧ (hardlimit_max_screen_on_store scenarioConsts scenarioTable (some 500) 4
          { initState scenarioConsts with wakeup_kick_freq := 600 }).2.hardlimit_max_screen_on
        = 500
      ∧ (hardlimit_max_screen_on_store scenarioConsts scenarioTable (some 500) 4
          { initState scenarioConsts with wakeup_kick_freq := 600 }).2.wakeup_kick_freq
        = 500 :=
  ⟨by decide, by decide,
    ((screen_on_stores_adjust_wakeup_kick scenarioConsts
      { initState scenarioConsts with wakeup_kick_freq := 600 } scenarioTable 500 4
      (by decide)).1 (by decide)).1,
    ((screen_on_stores_adjust_wakeup_kick scenarioConsts
      { initState scenarioConsts with wakeup_kick_freq := 600 } scenarioTable 500 4
      (by decide)).1 (by decide)).2.1,
    ((screen_on_stores_adjust_wakeup_kick scenarioConsts
      { initState scenarioConsts with wakeup_kick_freq := 600 } scenarioTable 500 4
      (by decide)).1 (by decide)).2.2.1.trans (by decide)⟩

/-! ## The wakeup kick -/

/-- C11, as the code has it: for every state with
`hardlimit_min_screen_on ≤ wakeup_kick_freq ≤ hardlimit_max_screen_on`, every table and
every input, a sysfs write (accepted or not, to any attribute) that leaves
`hardlimit_min_screen_on ≤ hardlimit_max_screen_on` leaves the kick frequency inside
the screen-on window. -/
theorem wakeup_kick_window_kept (K : Consts) (s : State) (fld : Field) (table : List Nat)
    (buf : Option Nat) (count : Nat)
    (hwin : s.hardlimit_min_screen_on ≤ s.wakeup_kick_freq
      ∧ s.wakeup_kick_freq ≤ s.hardlimit_max_screen_on)
    (hord : (sysfs_store K fld table buf count s).2.hardlimit_min_screen_on
      ≤ (sysfs_store K fld table buf count s).2.hardlimit_max_screen_on) :
    (sysfs_store K fld table buf count s).2.hardlimit_min_screen_on
        ≤ (sysfs_store K fld table buf count s).2.wakeup_kick_freq
      ∧ (sysfs_store K fld table buf count s).2.wakeup_kick_freq
        ≤ (sysfs_store K fld table buf count s).2.hardlimit_max_screen_on := by
  cases buf with
  | none => cases fld <;> exact hwin
  | some v =>
    cases fld <;> simp only [sysfs_store, hardlimit_max_screen_on_store,
      hardlimit_max_screen_off_store, hardlimit_min_screen_on_store,
      hardlimit_min_screen_off_store, wakeup_kick_freq_store, wakeup_kick_delay_store,
      touchboost_lo_freq_store, touchboost_hi_freq_store, touchboost_delay_store,
      touchboost_eventcount_store, userspace_dvfs_lock_store, reapply_hard_limits_eq]
      at hord ⊢
      <;> split_ifs at hord ⊢ <;> simp_all

/-- C11 as amended, with the kick frequency at 600 in the window 200..1000: the accepted
write `scaling_min_freq_screen_on = 700` raises the kick frequency to 700, inside the
new window 700..1000. -/
theorem wakeup_kick_window_kept_witness :
    (({ initState scenarioConsts with wakeup_kick_freq := 600 } : State).hardlimit_min_screen_on
        ≤ ({ initState scenarioConsts with wakeup_kick_freq := 600 } : State).wakeup_kick_freq
      ∧ ({ initState scenarioConsts with wakeup_kick_freq := 600 } : State).wakeup_kick_freq
        ≤ ({ initState scenarioConsts with wakeup_kick_freq := 600 }
          : State).hardlimit_max_screen_on)
      ∧ (sysfs_store scenarioConsts .hardlimit_min_screen_on scenarioTable (some 700) 4
          { initState scenarioConsts with wakeup_kick_freq := 600 }).1 = 4
      ∧ (sysfs_store scenarioConsts .hardlimit_min_screen_on scenarioTable (some 700) 4
          { initState scenarioConsts with wakeup_kick_freq := 600 }).2.wakeup_kick_freq = 700
      ∧ ((sysfs_store scenarioConsts .hardlimit_min_screen_on scenarioTable (some 700) 4
            { initState scenarioConsts with wakeup_kick_freq := 600 }).2.hardlimit_min_screen_on
          ≤ (sysfs_store scenarioConsts .hardlimit_min_screen_on scenarioTable (some 700) 4
            { initState scenarioConsts with wakeup_kick_freq := 600 }).2.wakeup_kick_freq
        ∧ (sysfs_store scenarioConsts .hardlimit_min_screen_on scenarioTable (some 700) 4
            { initState scenarioConsts with wakeup_kick_freq := 600 }).2.wakeup_kick_freq
          ≤ (sysfs_store scenarioConsts .hardlimit_min_screen_on scenarioTable (some 700) 4
            { initState scenarioConsts with wakeup_kick_freq := 600
              }).2.hardlimit_max_screen_on) :=
  ⟨by decide, by decide, by decide,
    wakeup_kick_window_kept scenarioConsts
      { initState scenarioConsts with wakeup_kick_freq := 600 }
      .hardlimit_min_screen_on scenarioTable (some 700) 4 (by decide) (by decide)⟩

/-- C11 as stated fails: in the initial state the kick frequency (200) is inside the
window 200..1000; the accepted write `scaling_max_freq_screen_on = 100` lowers the kick
frequency to 100, below `hardlimit_min_screen_on = 200`. -/
theorem wakeup_kick_below_min_after_max_store :
    ((initState scenarioConsts).hardlimit_min_screen_on
        ≤ (initState scenarioConsts).wakeup_kick_freq
      ∧ (initState scenarioConsts).wakeup_kick_freq
        ≤ (initState scenarioConsts).hardlimit_max_screen_on)
      ∧ 100 ∈ table_entries scenarioConsts scenarioTable
      ∧ (hardlimit_max_screen_on_store scenarioConsts scenarioTable (some 100) 4
          (initState scenarioConsts)).1 = 4
      ∧ (hardlimit_max_screen_on_store scenarioConsts scenarioTable (some 100) 4
          (initState scenarioConsts)).2.wakeup_kick_freq = 100
      ∧ (hardlimit_max_screen_on_store scenarioConsts scenarioTable (some 100) 4
          (initState scenarioConsts)).2.hardlimit_min_screen_on = 200
      ∧ ¬ ((hardlimit_max_screen_on_store scenarioConsts scenarioTable (some 100) 4
            (initState scenarioConsts)).2.hardlimit_min_screen_on
          ≤ (hardlimit_max_screen_on_store scenarioConsts scenarioTable (some 100) 4
            (initState scenarioConsts)).2.wakeup_kick_freq) := by
  decide

/-- C12, as the code has it: for every state, table and value `v`,
`wakeup_kick_freq_store(v)` returns `count` exactly when `v` is the current kick
frequency or `v` is an entry of the table with
`hardlimit_min_screen_on ≤ v ≤ hardlimit_max_screen_on`; on success
`wakeup_kick_freq = v`, otherwise it returns `-EINVAL` and the state is unchanged. -/
theorem wakeup_kick_freq_store_accepts (K : Consts) (s : State) (table : List Nat)
    (v count : Nat) :
    ((wakeup_kick_freq_store K table (some v) count s).1 = (count : Int) ↔
        (v = s.wakeup_kick_freq
          ∨ (v ∈ table_entries K table
            ∧ s.hardlimit_min_screen_on ≤ v ∧ v ≤ s.hardlimit_max_screen_on)))
      ∧ ((wakeup_kick_freq_store K table (some v) count s).1 = (count : Int) →
        (wakeup_kick_freq_store K table (some v) count s).2.wakeup_kick_freq = v)
      ∧ ((wakeup_kick_freq_store K table (some v) count s).1 ≠ (count : Int) →
        (wakeup_kick_freq_store K table (some v) count s).1 = -EINVAL
          ∧ (wakeup_kick_freq_store K table (some v) count s).2 = s) := by
  have hne := count_ne_neg_EINVAL count
  have hiff := table_has_frequency_iff K table v
  by_cases hsame : v = s.wakeup_kick_freq
  · simp [wakeup_kick_freq_store, hsame]
  · by_cases hrange : v > s.hardlimit_max_screen_on ∨ v < s.hardlimit_min_screen_on
    · have hno : ¬ (s.hardlimit_min_screen_on ≤ v ∧ v ≤ s.hardlimit_max_screen_on) := by
        omega
      simp [wakeup_kick_freq_store, hsame, hrange, hno, hne.symm]
    · have hin : s.hardlimit_min_screen_on ≤ v ∧ v ≤ s.hardlimit_max_screen_on := by omega
      cases hb : table_has_frequency K table v with
      | true =>
        have hmem : v ∈ table_entries K table := hiff.mp hb
        simp [wakeup_kick_freq_store, hsame, hrange, hb, hmem, hin, reapply_hard_limits_eq]
      | false =>
        have hmem : v ∉ table_entries K table := fun h => by
          rw [hiff.mpr h] at hb; exact Bool.noConfusion hb
        simp [wakeup_kick_freq_store, hsame, hrange, hb, hmem, hne.symm]

/-- C12 as stated fails: after the accepted write `scaling_max_freq_screen_on = 100` the
kick frequency is 100 and `hardlimit_min_screen_on` is 200; writing
`wakeup_kick_freq = 100` then returns `count` although 100 is below
`hardlimit_min_screen_on`. -/
theorem wakeup_kick_freq_store_accepts_current_outside_window :
    (run scenarioConsts (initState scenarioConsts)
        [.store .hardlimit_max_screen_on scenarioTable (some 100) 4]).wakeup_kick_freq = 100
      ∧ (run scenarioConsts (initState scenarioConsts)
        [.store .hardlimit_max_screen_on scenarioTable (some 100) 4]).hardlimit_min_screen_on
        = 200
      ∧ (wakeup_kick_freq_store scenarioConsts scenarioTable (some 100) 4
          (run scenarioConsts (initState scenarioConsts)
            [.store .hardlimit_max_screen_on scenarioTable (some 100) 4])).1 = 4
      ∧ ¬ (100 ∈ table_entries scenarioConsts scenarioTable
        ∧ (run scenarioConsts (initState scenarioConsts)
            [.store .hardlimit_max_screen_on scenarioTable (some 100) 4]).hardlimit_min_screen_on
          ≤ 100
        ∧ 100 ≤ (run scenarioConsts (initState scenarioConsts)
            [.store .hardlimit_max_screen_on scenarioTable (some 100) 4]
            ).hardlimit_max_screen_on) := by
  decide

/-- C14: after `cpufreq_hardlimit_resume`, from any state, the screen state is ON, the
kick flag is ACTIVE exactly when `wakeup_kick_delay` is not the DISABLED value (the two
flag values of the header being distinct), and the effective limits are the
recomputation of the new state. -/
theorem cpufreq_hardlimit_resume_kick (K : Consts) (s : State)
    (hK : K.CPUFREQ_HARDLIMIT_WAKEUP_KICK_INACTIVE ≠ K.CPUFREQ_HARDLIMIT_WAKEUP_KICK_ACTIVE) :
    (cpufreq_hardlimit_resume K s).current_screen_state = K.CPUFREQ_HARDLIMIT_SCREEN_ON
      ∧ ((cpufreq_hardlimit_resume K s).wakeup_kick_active
          = K.CPUFREQ_HARDLIMIT_WAKEUP_KICK_ACTIVE
        ↔ s.wakeup_kick_delay ≠ K.CPUFREQ_HARDLIMIT_WAKEUP_KICK_DISABLED)
      ∧ ((cpufreq_hardlimit_resume K s).current_limit_min,
          (cpufreq_hardlimit_resume K s).current_limit_max)
        = effective_limits K (cpufreq_hardlimit_resume K s) := by
  refine ⟨?_, ?_, ?_⟩
  · simp only [cpufreq_hardlimit_resume, reapply_hard_limits_eq]
    split_ifs <;> rfl
  · simp only [cpufreq_hardlimit_resume, reapply_hard_limits_eq]
    split_ifs with hd
    · simp [hd, hK]
    · simp [hd]
  · unfold cpufreq_hardlimit_resume
    rw [effective_limits_reapply]
    rfl

/-- C14 at a screen-off state with a leftover ACTIVE flag and the delay disabled: the
resume clears the flag; with the delay at 2000 it sets it. -/
theorem cpufreq_hardlimit_resume_kick_witness :
    scenarioConsts.CPUFREQ_HARDLIMIT_WAKEUP_KICK_INACTIVE
        ≠ scenarioConsts.CPUFREQ_HARDLIMIT_WAKEUP_KICK_ACTIVE
      ∧ (cpufreq_hardlimit_resume scenarioConsts
          { initState scenarioConsts with
            current_screen_state := 1, wakeup_kick_active := 1 }).wakeup_kick_active = 0
      ∧ (cpufreq_hardlimit_resume scenarioConsts
          { initState scenarioConsts with
            current_screen_state := 1, wakeup_kick_delay := 2000 }).wakeup_kick_active = 1
      ∧ (cpufreq_hardlimit_resume scenarioConsts
          { initState scenarioConsts with
            current_screen_state := 1, wakeup_kick_delay := 2000 }).current_screen_state
        = scenarioConsts.CPUFREQ_HARDLIMIT_SCREEN_ON :=
  ⟨by decide, by decide, by decide,
    (cpufreq_hardlimit_resume_kick scenarioConsts
      { initState scenarioConsts with
        current_screen_state := 1, wakeup_kick_delay := 2000 } (by decide)).1⟩

/-- C13: for every state and every table entry `v` other than the current
`touchboost_hi_freq`, `touchboost_hi_freq_store(v)` returns `count` and leaves
`touchboost_hi_freq = v` and `touchboost_lo_freq = min(lo', v)`, `lo'` being
`CPUFREQ_HARDLIMIT_MIN_SCREEN_ON_STOCK` when the old lo frequency is the DISABLED value
and the old lo frequency otherwise; so lo ends at most hi, and an old lo frequency
(not DISABLED) above `v` is lowered to `v`. -/
theorem touchboost_hi_freq_store_lowers_lo (K : Consts) (s : State) (table : List Nat)
    (v count : Nat) (hv : v ∈ table_entries K table) (hne : v ≠ s.touchboost_hi_freq) :
    (touchboost_hi_freq_store K table (some v) count s).1 = (count : Int)
      ∧ (touchboost_hi_freq_store K table (some v) count s).2.touchboost_hi_freq = v
      ∧ (touchboost_hi_freq_store K table (some v) count s).2.touchboost_lo_freq
        = min (if s.touchboost_lo_freq = K.CPUFREQ_HARDLIMIT_TOUCHBOOST_DISABLED then
            K.CPUFREQ_HARDLIMIT_MIN_SCREEN_ON_STOCK else s.touchboost_lo_freq) v
      ∧ (touchboost_hi_freq_store K table (some v) count s).2.touchboost_lo_freq
        ≤ (touchboost_hi_freq_store K table (some v) count s).2.touchboost_hi_freq
      ∧ (s.touchboost_lo_freq ≠ K.CPUFREQ_HARDLIMIT_TOUCHBOOST_DISABLED →
          v < s.touchboost_lo_freq →
          (touchboost_hi_freq_store K table (some v) count s).2.touchboost_lo_freq = v) := by
  have hhas : table_has_frequency K table v = true := (table_has_frequency_iff K table v).mpr hv
  simp only [touchboost_hi_freq_store, if_neg hne, hhas, if_true]
  split_ifs <;> simp_all <;> omega

/-- Scenario E of the spec, second half: with lo 300 and hi 800, writing
`touchboost_hi_freq = 200` is accepted and forces the lo frequency down to 200. -/
theorem touchboost_hi_freq_store_lowers_lo_witness :
    200 ∈ table_entries scenarioConsts scenarioTable
      ∧ 200 ≠ (initState scenarioConsts).touchboost_hi_freq
      ∧ (touchboost_hi_freq_store scenarioConsts scenarioTable (some 200) 4
          (initState scenarioConsts)).1 = 4
      ∧ (touchboost_hi_freq_store scenarioConsts scenarioTable (some 200) 4
          (initState scenarioConsts)).2.touchboost_hi_freq = 200
      ∧ (touchboost_hi_freq_store scenarioConsts scenarioTable (some 200) 4
          (initState scenarioConsts)).2.touchboost_lo_freq = 200 :=
  ⟨by decide, by decide,
    (touchboost_hi_freq_store_lowers_lo scenarioConsts (initState scenarioConsts)
      scenarioTable 200 4 (by decide) (by decide)).1,
    (touchboost_hi_freq_store_lowers_lo scenarioConsts (initState scenarioConsts)
      scenarioTable 200 4 (by decide) (by decide)).2.1,
    (touchboost_hi_freq_store_lowers_lo scenarioConsts (initState scenarioConsts)
      scenarioTable 200 4 (by decide) (by decide)).2.2.2.2 (by decide) (by decide)⟩

/-- C15: from a state with touchboost inactive and the kick delay not DISABLED (screen
off or not), right after `cpufreq_hardlimit_resume` the minimum is `wakeup_kick_freq`
and the kick work is pending; when that work then runs, `wakeup_kick_active` is
INACTIVE and the limits are `hardlimit_min_screen_on` and `hardlimit_max_screen_on`
(the two flag values of the header being distinct). -/
theorem wakeup_kick_resume_then_stop (K : Consts) (s : State)
    (hK : K.CPUFREQ_HARDLIMIT_WAKEUP_KICK_INACTIVE ≠ K.CPUFREQ_HARDLIMIT_WAKEUP_KICK_ACTIVE)
    (htb : s.touchboost_active = K.CPUFREQ_HARDLIMIT_TOUCHBOOST_INACTIVE)
    (hdelay : s.wakeup_kick_delay ≠ K.CPUFREQ_HARDLIMIT_WAKEUP_KICK_DISABLED) :
    (cpufreq_hardlimit_resume K s).current_limit_min = s.wakeup_kick_freq
      ∧ (cpufreq_hardlimit_resume K s).stop_wakeup_kick_work
        = some ((s.wakeup_kick_delay * 1000) % UINT_MOD)
      ∧ (step K (cpufreq_hardlimit_resume K s) .wakeup_kick_work).wakeup_kick_active
        = K.CPUFREQ_HARDLIMIT_WAKEUP_KICK_INACTIVE
      ∧ (step K (cpufreq_hardlimit_resume K s) .wakeup_kick_work).current_limit_min
        = s.hardlimit_min_screen_on
      ∧ (step K (cpufreq_hardlimit_resume K s) .wakeup_kick_work).current_limit_max
        = s.hardlimit_max_screen_on
      ∧ (stop_wakeup_kick K (cpufreq_hardlimit_resume K s)).wakeup_kick_active
        = K.CPUFREQ_HARDLIMIT_WAKEUP_KICK_INACTIVE
      ∧ (stop_wakeup_kick K (cpufreq_hardlimit_resume K s)).current_limit_min
        = s.hardlimit_min_screen_on
      ∧ (stop_wakeup_kick K (cpufreq_hardlimit_resume K s)).current_limit_max
        = s.hardlimit_max_screen_on := by
  have hres : cpufreq_hardlimit_resume K s =
      { s with
        current_screen_state := K.CPUFREQ_HARDLIMIT_SCREEN_ON
        wakeup_kick_active := K.CPUFREQ_HARDLIMIT_WAKEUP_KICK_ACTIVE
        stop_wakeup_kick_work := some ((s.wakeup_kick_delay * 1000) % UINT_MOD)
        current_limit_min := s.wakeup_kick_freq
        current_limit_max := s.hardlimit_max_screen_on } := by
    simp [cpufreq_hardlimit_resume, reapply_hard_limits, hdelay, schedule_delayed_work]
  rw [hres]
  simp [step, stop_wakeup_kick, reapply_hard_limits, hK, htb]

/-- Scenario C of the spec: resume from screen off with the kick delay at 2000 and the
kick frequency at 300 gives minimum 300; once the kick work has run the window is back
to 200..1000. -/
theorem wakeup_kick_resume_then_stop_witness :
    scenarioConsts.CPUFREQ_HARDLIMIT_WAKEUP_KICK_INACTIVE
        ≠ scenarioConsts.CPUFREQ_HARDLIMIT_WAKEUP_KICK_ACTIVE
      ∧ (cpufreq_hardlimit_resume scenarioConsts
          { initState scenarioConsts with
            current_screen_state := 1, wakeup_kick_delay := 2000, wakeup_kick_freq := 300
            }).current_limit_min = 300
      ∧ (step scenarioConsts (cpufreq_hardlimit_resume scenarioConsts
          { initState scenarioConsts with
            current_screen_state := 1, wakeup_kick_delay := 2000, wakeup_kick_freq := 300 })
          .wakeup_kick_work).current_limit_min = 200
      ∧ (step scenarioConsts (cpufreq_hardlimit_resume scenarioConsts
          { initState scenarioConsts with
            current_screen_state := 1, wakeup_kick_delay := 2000, wakeup_kick_freq := 300 })
          .wakeup_kick_work).current_limit_max = 1000 :=
  ⟨by decide,
    (wakeup_kick_resume_then_stop scenarioConsts
      { initState scenarioConsts with
        current_screen_state := 1, wakeup_kick_delay := 2000, wakeup_kick_freq := 300 }
      (by decide) (by decide) (by decide)).1,
    (wakeup_kick_resume_then_stop scenarioConsts
      { initState scenarioConsts with
        current_screen_state := 1, wakeup_kick_delay := 2000, wakeup_kick_freq := 300 }
      (by decide) (by decide) (by decide)).2.2.2.1,
    (wakeup_kick_resume_then_stop scenarioConsts
      { initState scenarioConsts with
        current_screen_state := 1, wakeup_kick_delay := 2000, wakeup_kick_freq := 300 }
      (by decide) (by decide) (by decide)).2.2.2.2.1⟩

/-! ## Touchboost -/

/-- C16, as the code has it: from a state with touchboost enabled, level INACTIVE and
threshold `T = touchboost_eventcount` (`1 ≤ T`, an `unsigned int`), after at most `T`
consecutive reports with strictly increasing nonzero finger counts the level is not HI:
it is LO with `touchevent_count` equal to the number of reports; after exactly `T`
such reports the next nonzero report, report `T + 1`, raises the level to HI (the flag
values of the header being pairwise distinct). -/
theorem touchboost_hi_on_report_after_threshold (K : Consts) (s : State) (reports : List Nat)
    (hK_lo : K.CPUFREQ_HARDLIMIT_TOUCHBOOST_ACTIVE_LO ≠ K.CPUFREQ_HARDLIMIT_TOUCHBOOST_INACTIVE)
    (hK_hi : K.CPUFREQ_HARDLIMIT_TOUCHBOOST_ACTIVE_HI ≠ K.CPUFREQ_HARDLIMIT_TOUCHBOOST_INACTIVE)
    (hK_lohi : K.CPUFREQ_HARDLIMIT_TOUCHBOOST_ACTIVE_HI ≠ K.CPUFREQ_HARDLIMIT_TOUCHBOOST_ACTIVE_LO)
    (hen : s.touchboost_delay ≠ K.CPUFREQ_HARDLIMIT_TOUCHBOOST_DISABLED)
    (hin : s.touchboost_active = K.CPUFREQ_HARDLIMIT_TOUCHBOOST_INACTIVE)
    (hT : 1 ≤ s.touchboost_eventcount) (hT32 : s.touchboost_eventcount < UINT_MOD)
    (hinc : increasing_from 0 reports) (hlen : reports.length ≤ s.touchboost_eventcount) :
    (report_touches K s reports).touchboost_active ≠ K.CPUFREQ_HARDLIMIT_TOUCHBOOST_ACTIVE_HI
      ∧ (reports ≠ [] →
          (report_touches K s reports).touchboost_active
              = K.CPUFREQ_HARDLIMIT_TOUCHBOOST_ACTIVE_LO
            ∧ (report_touches K s reports).touchevent_count = reports.length)
      ∧ (reports.length = s.touchboost_eventcount → ∀ n : Nat, n ≠ 0 →
          (touchboost_report_touch K n (report_touches K s reports)).touchboost_active
            = K.CPUFREQ_HARDLIMIT_TOUCHBOOST_ACTIVE_HI) := by
  cases reports with
  | nil =>
    refine ⟨?_, fun h => absurd rfl h, ?_⟩
    · show s.touchboost_active ≠ _
      rw [hin]; exact hK_hi.symm
    · intro h0
      simp at h0
      omega
  | cons m rest =>
    have hm : m ≠ 0 := by have := hinc.1; omega
    obtain ⟨h1, h2, h3, h4, h5⟩ := touch_from_inactive K s m hen hin hm
    have hlen' : rest.length + 1 ≤ s.touchboost_eventcount := by simpa using hlen
    obtain ⟨g1, g2, g3, g4⟩ :=
      report_touches_from_lo K rest hK_lo (touchboost_report_touch K m s)
        (by rw [h4]; exact hen) h1 (by rw [h3]; exact hinc.2)
        (by rw [h2, h5]; omega) (by rw [h5]; exact hT32)
    have hrun : report_touches K s (m :: rest)
        = report_touches K (touchboost_report_touch K m s) rest := rfl
    rw [hrun]
    refine ⟨?_, fun _ => ⟨g1, ?_⟩, ?_⟩
    · rw [g1]; exact hK_lohi.symm
    · rw [g2, h2]; simp; omega
    · intro hfull n hn
      apply touch_promotes K _ n hK_lo (by rw [g3, h4]; exact hen) g1 hn
      rw [g2, g4, h2, h5]
      simp at hfull
      omega

/-- C16 as amended, on scenario D of the spec (threshold 3): after the reports 1, 2, 3
the level is LO with three events counted, and the fourth report raises it to HI. -/
theorem touchboost_hi_on_report_after_threshold_witness :
    scenarioDState.touchboost_delay ≠ scenarioConsts.CPUFREQ_HARDLIMIT_TOUCHBOOST_DISABLED
      ∧ scenarioDState.touchboost_active = scenarioConsts.CPUFREQ_HARDLIMIT_TOUCHBOOST_INACTIVE
      ∧ scenarioDState.touchboost_eventcount = 3
      ∧ increasing_from 0 [1, 2, 3]
      ∧ (report_touches scenarioConsts scenarioDState [1, 2, 3]).touchboost_active
        ≠ scenarioConsts.CPUFREQ_HARDLIMIT_TOUCHBOOST_ACTIVE_HI
      ∧ (touchboost_report_touch scenarioConsts 1
          (report_touches scenarioConsts scenarioDState [1, 2, 3])).touchboost_active
        = scenarioConsts.CPUFREQ_HARDLIMIT_TOUCHBOOST_ACTIVE_HI :=
  ⟨by decide, by decide, by decide, ⟨by decide, by decide, by decide, trivial⟩,
    (touchboost_hi_on_report_after_threshold scenarioConsts scenarioDState [1, 2, 3]
      (by decide) (by decide) (by decide) (by decide) (by decide) (by decide) (by decide)
      ⟨by decide, by decide, by decide, trivial⟩ (by decide)).1,
    (touchboost_hi_on_report_after_threshold scenarioConsts scenarioDState [1, 2, 3]
      (by decide) (by decide) (by decide) (by decide) (by decide) (by decide) (by decide)
      ⟨by decide, by decide, by decide, trivial⟩ (by decide)).2.2 (by decide) 1 (by decide)⟩

/-- C16 as stated fails: in scenario D (touchboost enabled, level INACTIVE, threshold 3)
the three reports 1, 2, 3 leave the level at LO (1) with `touchevent_count = 3`; the
level is HI (2) only after the fourth report. -/
theorem touchboost_still_lo_after_threshold_reports :
    scenarioDState.touchboost_delay ≠ scenarioConsts.CPUFREQ_HARDLIMIT_TOUCHBOOST_DISABLED
      ∧ scenarioDState.touchboost_active = scenarioConsts.CPUFREQ_HARDLIMIT_TOUCHBOOST_INACTIVE
      ∧ scenarioDState.touchboost_eventcount = 3
      ∧ (report_touches scenarioConsts scenarioDState [1, 2, 3]).touchevent_count = 3
      ∧ (report_touches scenarioConsts scenarioDState [1, 2, 3]).touchboost_active
        = scenarioConsts.CPUFREQ_HARDLIMIT_TOUCHBOOST_ACTIVE_LO
      ∧ ¬ ((report_touches scenarioConsts scenarioDState [1, 2, 3]).touchboost_active
        = scenarioConsts.CPUFREQ_HARDLIMIT_TOUCHBOOST_ACTIVE_HI)
      ∧ (report_touches scenarioConsts scenarioDState [1, 2, 3, 1]).touchboost_active
        = scenarioConsts.CPUFREQ_HARDLIMIT_TOUCHBOOST_ACTIVE_HI := by
  decide

/-- C17: with touchboost enabled, at every level, `touchboost_report_touch(0)` sets
`previous_finger_count` to 0 and changes nothing else: level, event count, pending
works and effective limits are as before. -/
theorem touchboost_report_release (K : Consts) (s : State)
    (hen : s.touchboost_delay ≠ K.CPUFREQ_HARDLIMIT_TOUCHBOOST_DISABLED) :
    touchboost_report_touch K 0 s = { s with previous_finger_count := 0 } := by
  simp only [touchboost_report_touch, if_neg hen]
  split_ifs <;> first | rfl | (exfalso; simp_all)

/-- C17 at level HI with a work pending: the release report only clears the remembered
finger count. -/
theorem touchboost_report_release_witness :
    (report_touches scenarioConsts scenarioDState [1, 2, 3, 4]).touchboost_delay
        ≠ scenarioConsts.CPUFREQ_HARDLIMIT_TOUCHBOOST_DISABLED
      ∧ (report_touches scenarioConsts scenarioDState [1, 2, 3, 4]).touchboost_active
        = scenarioConsts.CPUFREQ_HARDLIMIT_TOUCHBOOST_ACTIVE_HI
      ∧ touchboost_report_touch scenarioConsts 0
          (report_touches scenarioConsts scenarioDState [1, 2, 3, 4])
        = { report_touches scenarioConsts scenarioDState [1, 2, 3, 4] with
            previous_finger_count := 0 } :=
  ⟨by decide, by decide,
    touchboost_report_release scenarioConsts
      (report_touches scenarioConsts scenarioDState [1, 2, 3, 4]) (by decide)⟩

/-- C18: with `touchboost_delay` at the DISABLED value, `touchboost_report_touch` leaves
the whole state unchanged for every finger count. -/
theorem touchboost_report_disabled (K : Consts) (s : State) (finger_count : Nat)
    (hdis : s.touchboost_delay = K.CPUFREQ_HARDLIMIT_TOUCHBOOST_DISABLED) :
    touchboost_report_touch K finger_count s = s := by
  simp [touchboost_report_touch, hdis]

/-- C18 at the initial state, where touchboost is disabled: a report of three fingers
changes nothing. -/
theorem touchboost_report_disabled_witness :
    (initState scenarioConsts).touchboost_delay
        = scenarioConsts.CPUFREQ_HARDLIMIT_TOUCHBOOST_DISABLED
      ∧ touchboost_report_touch scenarioConsts 3 (initState scenarioConsts)
        = initState scenarioConsts :=
  ⟨by decide, touchboost_report_disabled scenarioConsts (initState scenarioConsts) 3 (by decide)⟩

/-! ## The lock mode and the suspend frame -/

/-- C19: in a state whose `userspace_dvfs_lock` is one of ALLOW, IGNORE, REFUSE, for every
value `v`, `userspace_dvfs_lock_store(v)` returns `count` exactly when `v` is one of the
three modes; on success `userspace_dvfs_lock_status()` returns `v`, otherwise the store
returns `-EINVAL` and the state is unchanged; either way the mode is one of the three. -/
theorem userspace_dvfs_lock_store_modes (K : Consts) (s : State) (v count : Nat)
    (hs : s.userspace_dvfs_lock = K.CPUFREQ_HARDLIMIT_USERSPACE_DVFS_ALLOW
      ∨ s.userspace_dvfs_lock = K.CPUFREQ_HARDLIMIT_USERSPACE_DVFS_IGNORE
      ∨ s.userspace_dvfs_lock = K.CPUFREQ_HARDLIMIT_USERSPACE_DVFS_REFUSE) :
    ((userspace_dvfs_lock_store K (some v) count s).1 = (count : Int) ↔
        (v = K.CPUFREQ_HARDLIMIT_USERSPACE_DVFS_ALLOW
          ∨ v = K.CPUFREQ_HARDLIMIT_USERSPACE_DVFS_IGNORE
          ∨ v = K.CPUFREQ_HARDLIMIT_USERSPACE_DVFS_REFUSE))
      ∧ ((userspace_dvfs_lock_store K (some v) count s).1 = (count : Int) →
          userspace_dvfs_lock_status (userspace_dvfs_lock_store K (some v) count s).2 = v)
      ∧ ((userspace_dvfs_lock_store K (some v) count s).1 ≠ (count : Int) →
          (userspace_dvfs_lock_store K (some v) count s).1 = -EINVAL
            ∧ (userspace_dvfs_lock_store K (some v) count s).2 = s)
      ∧ (userspace_dvfs_lock_status (userspace_dvfs_lock_store K (some v) count s).2
            = K.CPUFREQ_HARDLIMIT_USERSPACE_DVFS_ALLOW
          ∨ userspace_dvfs_lock_status (userspace_dvfs_lock_store K (some v) count s).2
            = K.CPUFREQ_HARDLIMIT_USERSPACE_DVFS_IGNORE
          ∨ userspace_dvfs_lock_status (userspace_dvfs_lock_store K (some v) count s).2
            = K.CPUFREQ_HARDLIMIT_USERSPACE_DVFS_REFUSE) := by
  have hne := count_ne_neg_EINVAL count
  by_cases hsame : v = s.userspace_dvfs_lock
  · subst hsame
    simp [userspace_dvfs_lock_store, userspace_dvfs_lock_status, hs]
  · by_cases hv : v = K.CPUFREQ_HARDLIMIT_USERSPACE_DVFS_ALLOW
        ∨ v = K.CPUFREQ_HARDLIMIT_USERSPACE_DVFS_IGNORE
        ∨ v = K.CPUFREQ_HARDLIMIT_USERSPACE_DVFS_REFUSE
    · simp [userspace_dvfs_lock_store, userspace_dvfs_lock_status, hsame, hv]
    · simp [userspace_dvfs_lock_store, userspace_dvfs_lock_status, hsame, hv, hne.symm, hs]

/-- C19 with the modes 0, 1, 2 of the driver's header comment: from ALLOW, writing 2 is
accepted and the status is then 2; writing 3 returns `-EINVAL` and the mode stays 0. -/
theorem userspace_dvfs_lock_store_modes_witness :
    (initState scenarioConsts).userspace_dvfs_lock
        = scenarioConsts.CPUFREQ_HARDLIMIT_USERSPACE_DVFS_ALLOW
      ∧ (userspace_dvfs_lock_store scenarioConsts (some 2) 2 (initState scenarioConsts)).1 = 2
      ∧ userspace_dvfs_lock_status
          (userspace_dvfs_lock_store scenarioConsts (some 2) 2 (initState scenarioConsts)).2 = 2
      ∧ (userspace_dvfs_lock_store scenarioConsts (some 3) 2 (initState scenarioConsts)).1
        = -EINVAL
      ∧ (userspace_dvfs_lock_store scenarioConsts (some 3) 2 (initState scenarioConsts)).2
        = initState scenarioConsts :=
  ⟨by decide, by decide,
    (userspace_dvfs_lock_store_modes scenarioConsts (initState scenarioConsts) 2 2
      (Or.inl (by decide))).2.1 (by decide),
    ((userspace_dvfs_lock_store_modes scenarioConsts (initState scenarioConsts) 3 2
      (Or.inl (by decide))).2.2.1 (by decide)).1,
    ((userspace_dvfs_lock_store_modes scenarioConsts (initState scenarioConsts) 3 2
      (Or.inl (by decide))).2.2.1 (by decide)).2⟩

/-- C20: `cpufreq_hardlimit_suspend` writes `current_screen_state`, `current_limit_min`
and `current_limit_max` and nothing else; in particular the kick flag, the touchboost
level, the event count, the remembered finger count and the pending works are kept. -/
theorem cpufreq_hardlimit_suspend_frame (K : Consts) (s : State) :
    cpufreq_hardlimit_suspend K s =
        { s with
          current_screen_state := K.CPUFREQ_HARDLIMIT_SCREEN_OFF
          current_limit_min := (cpufreq_hardlimit_suspend K s).current_limit_min
          current_limit_max := (cpufreq_hardlimit_suspend K s).current_limit_max }
      ∧ (cpufreq_hardlimit_suspend K s).wakeup_kick_active = s.wakeup_kick_active
      ∧ (cpufreq_hardlimit_suspend K s).touchboost_active = s.touchboost_active
      ∧ (cpufreq_hardlimit_suspend K s).touchevent_count = s.touchevent_count
      ∧ (cpufreq_hardlimit_suspend K s).previous_finger_count = s.previous_finger_count
      ∧ (cpufreq_hardlimit_suspend K s).stop_wakeup_kick_work = s.stop_wakeup_kick_work
      ∧ (cpufreq_hardlimit_suspend K s).stop_touchboost_work = s.stop_touchboost_work := by
  simp [cpufreq_hardlimit_suspend, reapply_hard_limits_eq]

/-! ## Single touch reports -/

/-- C21, as the code has it: with touchboost enabled, after `touchboost_report_touch(n)`
`previous_finger_count = n` whichever branch was taken; with `touchboost_delay` at the
DISABLED value the function returns before the update and `previous_finger_count`
keeps its value. -/
theorem touchboost_report_remembers_count (K : Consts) (s : State) (n : Nat) :
    (s.touchboost_delay ≠ K.CPUFREQ_HARDLIMIT_TOUCHBOOST_DISABLED →
        (touchboost_report_touch K n s).previous_finger_count = n)
      ∧ (s.touchboost_delay = K.CPUFREQ_HARDLIMIT_TOUCHBOOST_DISABLED →
        (touchboost_report_touch K n s).previous_finger_count = s.previous_finger_count) := by
  constructor
  · intro hen
    simp only [touchboost_report_touch, if_neg hen]
  · intro hdis
    simp only [touchboost_report_touch, if_pos hdis]

/-- C21 as amended, in scenario D after the reports 1, 2 (level LO): a held count of 2
is remembered as 2; in the initial state, where touchboost is disabled, a report of 3
leaves the remembered count at 0. -/
theorem touchboost_report_remembers_count_witness :
    (report_touches scenarioConsts scenarioDState [1, 2]).touchboost_delay
        ≠ scenarioConsts.CPUFREQ_HARDLIMIT_TOUCHBOOST_DISABLED
      ∧ (touchboost_report_touch scenarioConsts 2
          (report_touches scenarioConsts scenarioDState [1, 2])).previous_finger_count = 2
      ∧ (initState scenarioConsts).touchboost_delay
        = scenarioConsts.CPUFREQ_HARDLIMIT_TOUCHBOOST_DISABLED
      ∧ (touchboost_report_touch scenarioConsts 3
          (initState scenarioConsts)).previous_finger_count
        = (initState scenarioConsts).previous_finger_count :=
  ⟨by decide,
    (touchboost_report_remembers_count scenarioConsts
      (report_touches scenarioConsts scenarioDState [1, 2]) 2).1 (by decide),
    by decide,
    (touchboost_report_remembers_count scenarioConsts (initState scenarioConsts) 3).2
      (by decide)⟩

/-- C21 as stated fails: in the initial state touchboost is disabled
(`touchboost_delay = 0`); after `touchboost_report_touch(3)` the remembered finger
count is still 0, not 3. -/
theorem touchboost_report_disabled_forgets_count :
    (initState scenarioConsts).touchboost_delay
        = scenarioConsts.CPUFREQ_HARDLIMIT_TOUCHBOOST_DISABLED
      ∧ (touchboost_report_touch scenarioConsts 3
          (initState scenarioConsts)).previous_finger_count = 0
      ∧ ¬ ((touchboost_report_touch scenarioConsts 3
          (initState scenarioConsts)).previous_finger_count = 3) := by
  decide

/-- C22: with touchboost enabled and the level INACTIVE, a report with a nonzero finger
count `n` sets the level to LO, the event count to 1 and the remembered count to `n`,
arms the touchboost work with the delay and leaves the limits equal to the
recomputation; with the screen on and the kick inactive these are `touchboost_lo_freq`
and `hardlimit_max_screen_on` (the flag values of the header being distinct). -/
theorem touchboost_report_first_touch (K : Consts) (s : State) (n : Nat)
    (hK_lo : K.CPUFREQ_HARDLIMIT_TOUCHBOOST_ACTIVE_LO ≠ K.CPUFREQ_HARDLIMIT_TOUCHBOOST_INACTIVE)
    (hK_kick : K.CPUFREQ_HARDLIMIT_WAKEUP_KICK_INACTIVE ≠ K.CPUFREQ_HARDLIMIT_WAKEUP_KICK_ACTIVE)
    (hen : s.touchboost_delay ≠ K.CPUFREQ_HARDLIMIT_TOUCHBOOST_DISABLED)
    (hin : s.touchboost_active = K.CPUFREQ_HARDLIMIT_TOUCHBOOST_INACTIVE)
    (hn : n ≠ 0) :
    (touchboost_report_touch K n s).touchboost_active
        = K.CPUFREQ_HARDLIMIT_TOUCHBOOST_ACTIVE_LO
      ∧ (touchboost_report_touch K n s).touchevent_count = 1
      ∧ (touchboost_report_touch K n s).previous_finger_count = n
      ∧ (touchboost_report_touch K n s).stop_touchboost_work
        = some ((s.touchboost_delay * 1000) % UINT_MOD)
      ∧ ((touchboost_report_touch K n s).current_limit_min,
          (touchboost_report_touch K n s).current_limit_max)
        = effective_limits K (touchboost_report_touch K n s)
      ∧ (s.current_screen_state = K.CPUFREQ_HARDLIMIT_SCREEN_ON →
          s.wakeup_kick_active = K.CPUFREQ_HARDLIMIT_WAKEUP_KICK_INACTIVE →
          (touchboost_report_touch K n s).current_limit_min = s.touchboost_lo_freq
            ∧ (touchboost_report_touch K n s).current_limit_max
              = s.hardlimit_max_screen_on) := by
  have hres : touchboost_report_touch K n s =
      { reapply_hard_limits K
          { s with
            touchboost_active := K.CPUFREQ_HARDLIMIT_TOUCHBOOST_ACTIVE_LO
            touchevent_count := 1
            stop_touchboost_work := some ((s.touchboost_delay * 1000) % UINT_MOD) } with
        previous_finger_count := n } := by
    simp [touchboost_report_touch, hen, hin, hn, schedule_delayed_work]
  rw [hres]
  refine ⟨?_, ?_, rfl, ?_, ?_, ?_⟩
  · simp [reapply_hard_limits_eq]
  · simp [reapply_hard_limits_eq]
  · simp [reapply_hard_limits_eq]
  · simp only [effective_limits, reapply_hard_limits]
    split_ifs <;> simp_all
  · intro hscreen hkick
    simp [reapply_hard_limits, hscreen, hkick, hK_kick, hK_lo]

/-- C22 in scenario D (screen on, kick inactive, delay 500 ms): the first touch gives
level LO, arms the work with 500000 microseconds and sets the window to 300..1000. -/
theorem touchboost_report_first_touch_witness :
    scenarioDState.touchboost_delay ≠ scenarioConsts.CPUFREQ_HARDLIMIT_TOUCHBOOST_DISABLED
      ∧ scenarioDState.touchboost_active = scenarioConsts.CPUFREQ_HARDLIMIT_TOUCHBOOST_INACTIVE
      ∧ (touchboost_report_touch scenarioConsts 1 scenarioDState).touchboost_active
        = scenarioConsts.CPUFREQ_HARDLIMIT_TOUCHBOOST_ACTIVE_LO
      ∧ (touchboost_report_touch scenarioConsts 1 scenarioDState).stop_touchboost_work
        = some 500000
      ∧ (touchboost_report_touch scenarioConsts 1 scenarioDState).current_limit_min = 300
      ∧ (touchboost_report_touch scenarioConsts 1 scenarioDState).current_limit_max = 1000 :=
  ⟨by decide, by decide,
    (touchboost_report_first_touch scenarioConsts scenarioDState 1
      (by decide) (by decide) (by decide) (by decide) (by decide)).1,
    (touchboost_report_first_touch scenarioConsts scenarioDState 1
      (by decide) (by decide) (by decide) (by decide) (by decide)).2.2.2.1.trans (by decide),
    ((touchboost_report_first_touch scenarioConsts scenarioDState 1
      (by decide) (by decide) (by decide) (by decide) (by decide)).2.2.2.2.2
      (by decide) (by decide)).1.trans (by decide),
    ((touchboost_report_first_touch scenarioConsts scenarioDState 1
      (by decide) (by decide) (by decide) (by decide) (by decide)).2.2.2.2.2
      (by decide) (by decide)).2.trans (by decide)⟩

/-- C23: with touchboost enabled, at level LO with `touchevent_count` below the
threshold `touchboost_eventcount` (an `unsigned int`), a report with a nonzero finger
count `n` keeps the level LO; the count becomes the old count plus one when
`previous_finger_count < n` and is unchanged otherwise. -/
theorem touchboost_report_counts_new_finger (K : Consts) (s : State) (n : Nat)
    (hK : K.CPUFREQ_HARDLIMIT_TOUCHBOOST_ACTIVE_LO ≠ K.CPUFREQ_HARDLIMIT_TOUCHBOOST_INACTIVE)
    (hen : s.touchboost_delay ≠ K.CPUFREQ_HARDLIMIT_TOUCHBOOST_DISABLED)
    (hlo : s.touchboost_active = K.CPUFREQ_HARDLIMIT_TOUCHBOOST_ACTIVE_LO)
    (hcount : s.touchevent_count < s.touchboost_eventcount)
    (hT : s.touchboost_eventcount < UINT_MOD)
    (hn : n ≠ 0) :
    (touchboost_report_touch K n s).touchboost_active
        = K.CPUFREQ_HARDLIMIT_TOUCHBOOST_ACTIVE_LO
      ∧ (touchboost_report_touch K n s).touchevent_count
        = (if s.previous_finger_count < n then s.touchevent_count + 1
            else s.touchevent_count) := by
  obtain ⟨h1, h2, _, _⟩ := touch_lo_below K s n hK hen hlo hn hcount
  have hmod : (s.touchevent_count + 1) % UINT_MOD = s.touchevent_count + 1 :=
    Nat.mod_eq_of_lt (by omega)
  rw [hmod] at h2
  exact ⟨h1, h2⟩

/-- C23 in scenario D after the first touch (level LO, count 1, one finger
remembered): a second finger is counted, a held single finger is not. -/
theorem touchboost_report_counts_new_finger_witness :
    (report_touches scenarioConsts scenarioDState [1]).touchboost_active
        = scenarioConsts.CPUFREQ_HARDLIMIT_TOUCHBOOST_ACTIVE_LO
      ∧ (report_touches scenarioConsts scenarioDState [1]).touchevent_count = 1
      ∧ (touchboost_report_touch scenarioConsts 2
          (report_touches scenarioConsts scenarioDState [1])).touchevent_count = 2
      ∧ (touchboost_report_touch scenarioConsts 1
          (report_touches scenarioConsts scenarioDState [1])).touchevent_count = 1 :=
  ⟨by decide, by decide,
    (touchboost_report_counts_new_finger scenarioConsts
      (report_touches scenarioConsts scenarioDState [1]) 2
      (by decide) (by decide) (by decide) (by decide) (by decide) (by decide)).2.trans
      (by decide),
    (touchboost_report_counts_new_finger scenarioConsts
      (report_touches scenarioConsts scenarioDState [1]) 1
      (by decide) (by decide) (by decide) (by decide) (by decide) (by decide)).2.trans
      (by decide)⟩

/-- C24: from a state with touchboost enabled and the level INACTIVE, with threshold
`T = touchboost_eventcount`, consecutive reports of which at most `T` are nonzero never
end at level HI, so no sequence of at most `T` reports does and reaching HI takes at
least `T + 1` nonzero reports; and a report raises the level to HI only from level LO
with `touchevent_count` already at least the threshold (the flag values of the header
being pairwise distinct). -/
theorem touchboost_hi_needs_more_than_threshold (K : Consts) (s : State)
    (hK_lo : K.CPUFREQ_HARDLIMIT_TOUCHBOOST_ACTIVE_LO ≠ K.CPUFREQ_HARDLIMIT_TOUCHBOOST_INACTIVE)
    (hK_hi : K.CPUFREQ_HARDLIMIT_TOUCHBOOST_ACTIVE_HI ≠ K.CPUFREQ_HARDLIMIT_TOUCHBOOST_INACTIVE)
    (hK_lohi : K.CPUFREQ_HARDLIMIT_TOUCHBOOST_ACTIVE_HI ≠ K.CPUFREQ_HARDLIMIT_TOUCHBOOST_ACTIVE_LO)
    (hen : s.touchboost_delay ≠ K.CPUFREQ_HARDLIMIT_TOUCHBOOST_DISABLED)
    (hin : s.touchboost_active = K.CPUFREQ_HARDLIMIT_TOUCHBOOST_INACTIVE) :
    (∀ reports : List Nat, nonzero_reports reports ≤ s.touchboost_eventcount →
        (report_touches K s reports).touchboost_active
          ≠ K.CPUFREQ_HARDLIMIT_TOUCHBOOST_ACTIVE_HI)
      ∧ (∀ reports : List Nat, reports.length ≤ s.touchboost_eventcount →
        (report_touches K s reports).touchboost_active
          ≠ K.CPUFREQ_HARDLIMIT_TOUCHBOOST_ACTIVE_HI)
      ∧ (∀ reports : List Nat,
        (report_touches K s reports).touchboost_active
            = K.CPUFREQ_HARDLIMIT_TOUCHBOOST_ACTIVE_HI →
          s.touchboost_eventcount + 1 ≤ nonzero_reports reports)
      ∧ (∀ (s0 : State) (n : Nat),
        s0.touchboost_active ≠ K.CPUFREQ_HARDLIMIT_TOUCHBOOST_ACTIVE_HI →
          (touchboost_report_touch K n s0).touchboost_active
            = K.CPUFREQ_HARDLIMIT_TOUCHBOOST_ACTIVE_HI →
          s0.touchboost_active = K.CPUFREQ_HARDLIMIT_TOUCHBOOST_ACTIVE_LO
            ∧ s0.touchboost_eventcount ≤ s0.touchevent_count ∧ n ≠ 0) := by
  have hmain : ∀ reports : List Nat, nonzero_reports reports ≤ s.touchboost_eventcount →
      (report_touches K s reports).touchboost_active
        ≠ K.CPUFREQ_HARDLIMIT_TOUCHBOOST_ACTIVE_HI := by
    intro reports hle
    rcases report_touches_inactive_below K reports hK_lo s hen hin hle with h | h
    · rw [h]; exact hK_hi.symm
    · rw [h]; exact hK_lohi.symm
  refine ⟨hmain, ?_, ?_, ?_⟩
  · intro reports hlen
    exact hmain reports (le_trans (nonzero_reports_le_length reports) hlen)
  · intro reports hhi
    by_contra hlt
    exact hmain reports (by omega) hhi
  · intro s0 n hnot hhi
    simp only [touchboost_report_touch, reapply_hard_limits_eq] at hhi
    split_ifs at hhi <;> simp_all

/-- C24 in scenario D (threshold 3): neither the three reports 1, 2, 3 nor the three
reports 2, 0, 5 end at level HI. -/
theorem touchboost_hi_needs_more_than_threshold_witness :
    scenarioDState.touchboost_delay ≠ scenarioConsts.CPUFREQ_HARDLIMIT_TOUCHBOOST_DISABLED
      ∧ scenarioDState.touchboost_active = scenarioConsts.CPUFREQ_HARDLIMIT_TOUCHBOOST_INACTIVE
      ∧ [1, 2, 3].length ≤ scenarioDState.touchboost_eventcount
      ∧ (report_touches scenarioConsts scenarioDState [1, 2, 3]).touchboost_active
        ≠ scenarioConsts.CPUFREQ_HARDLIMIT_TOUCHBOOST_ACTIVE_HI
      ∧ (report_touches scenarioConsts scenarioDState [2, 0, 5]).touchboost_active
        ≠ scenarioConsts.CPUFREQ_HARDLIMIT_TOUCHBOOST_ACTIVE_HI :=
  ⟨by decide, by decide, by decide,
    (touchboost_hi_needs_more_than_threshold scenarioConsts scenarioDState
      (by decide) (by decide) (by decide) (by decide) (by decide)).2.1 [1, 2, 3] (by decide),
    (touchboost_hi_needs_more_than_threshold scenarioConsts scenarioDState
      (by decide) (by decide) (by decide) (by decide) (by decide)).2.1 [2, 0, 5] (by decide)⟩

/-! ## The clamp with an inverted window -/

/-- C25: in a state with `current_limit_min > current_limit_max`,
`check_cpufreq_hardlimit(f)` is `current_limit_min` for every `f`; and in every state
the result is at least `current_limit_min`. -/
theorem check_cpufreq_hardlimit_min_wins (s : State) (f : Nat) :
    (s.current_limit_min > s.current_limit_max →
        check_cpufreq_hardlimit s f = s.current_limit_min)
      ∧ s.current_limit_min ≤ check_cpufreq_hardlimit s f := by
  constructor
  · intro h
    apply max_eq_left
    exact le_trans (min_le_left _ _) (le_of_lt h)
  · exact le_max_left _ _

/-- C25 in the state reached by writing `scaling_max_freq_screen_on = 100` (limits
200 and 100): the clamp answers 200 for the requests 50 and 5000. -/
theorem check_cpufreq_hardlimit_min_wins_witness :
    (run scenarioConsts (initState scenarioConsts)
        [.store .hardlimit_max_screen_on scenarioTable (some 100) 4]).current_limit_min
        > (run scenarioConsts (initState scenarioConsts)
          [.store .hardlimit_max_screen_on scenarioTable (some 100) 4]).current_limit_max
      ∧ check_cpufreq_hardlimit (run scenarioConsts (initState scenarioConsts)
          [.store .hardlimit_max_screen_on scenarioTable (some 100) 4]) 50 = 200
      ∧ check_cpufreq_hardlimit (run scenarioConsts (initState scenarioConsts)
          [.store .hardlimit_max_screen_on scenarioTable (some 100) 4]) 5000 = 200 :=
  ⟨by decide,
    ((check_cpufreq_hardlimit_min_wins (run scenarioConsts (initState scenarioConsts)
      [.store .hardlimit_max_screen_on scenarioTable (some 100) 4]) 50).1
      (by decide)).trans (by decide),
    ((check_cpufreq_hardlimit_min_wins (run scenarioConsts (initState scenarioConsts)
      [.store .hardlimit_max_screen_on scenarioTable (some 100) 4]) 5000).1
      (by decide)).trans (by decide)⟩

end Hardlimit
